import Mathlib

/-!
Shallow embedding of the grpcon connection registry (Go sources:
models/models.go, handlers/connection_handler.go,
handlers/notification_handler.go).

Go maps are modelled as association lists in insertion order; pointer
mutation of a stored Connection is modelled by updating the stored value
in place.  Time instants are Nat.  The opaque gRPC stream is modelled by
a Bool field streamSet (Stream != nil); the outcome of a Send call on a
stream is an input (an oracle by uniqueID, or a per-tick Bool), since the
code only branches on whether Send returned an error.
-/

/-- models.Connection.  `streamSet` models `Stream != nil`. -/
structure Connection where
  uniqueID : String
  clientID : String
  deviceID : String
  serviceName : String
  streamSet : Bool
  connectedAt : Nat
  lastNotificationAt : Nat
  notificationCount : Nat
  isActive : Bool
  lastHeartbeatAt : Nat
  heartbeatFailCount : Nat
  deriving Repr, DecidableEq

/-- models.ClientGroup: devices keyed by device_id (association list). -/
structure ClientGroup where
  clientID : String
  devices : List (String × Connection)
  deriving Repr, DecidableEq

/-- models.ConnectionManager: client groups keyed by client_id. -/
structure ConnectionManager where
  clients : List (String × ClientGroup)
  deriving Repr, DecidableEq

/-- models.CreateUniqueID: fmt.Sprintf("%s_%s", clientID, deviceID). -/
def CreateUniqueID (clientID deviceID : String) : String :=
  clientID ++ "_" ++ deviceID

/-- Association-list lookup (Go map read). -/
def alookup (k : String) : List (String × α) → Option α
  | [] => none
  | p :: rest => if p.1 = k then some p.2 else alookup k rest

/-- Association-list write (Go map assignment): replace in place, else append. -/
def assocSet (l : List (String × α)) (k : String) (v : α) : List (String × α) :=
  if l.any (fun p => p.1 = k) then
    l.map (fun p => if p.1 = k then (k, v) else p)
  else
    l ++ [(k, v)]

/-- Association-list delete (Go map delete). -/
def assocDel (l : List (String × α)) (k : String) : List (String × α) :=
  l.filter (fun p => ¬ p.1 = k)

/-- models.NewClientGroup. -/
def NewClientGroup (clientID : String) : ClientGroup :=
  { clientID := clientID, devices := [] }

/-- models.NewConnectionManager. -/
def NewConnectionManager : ConnectionManager :=
  { clients := [] }

/-- ClientGroup.AddDevice: cg.Devices[conn.DeviceID] = conn. -/
def AddDevice (cg : ClientGroup) (conn : Connection) : ClientGroup :=
  { cg with devices := assocSet cg.devices conn.deviceID conn }

/-- ClientGroup.RemoveDevice: delete if present, report whether it was. -/
def RemoveDevice (cg : ClientGroup) (deviceID : String) : Bool × ClientGroup :=
  match alookup deviceID cg.devices with
  | some _ => (true, { cg with devices := assocDel cg.devices deviceID })
  | none => (false, cg)

/-- ClientGroup.GetDevice. -/
def GetDevice (cg : ClientGroup) (deviceID : String) : Option Connection :=
  alookup deviceID cg.devices

/-- ClientGroup.GetAllDevices. -/
def GetAllDevices (cg : ClientGroup) : List Connection :=
  cg.devices.map Prod.snd

/-- ClientGroup.GetDeviceCount. -/
def GetDeviceCount (cg : ClientGroup) : Nat :=
  cg.devices.length

/-- ConnectionManager.AddConnection: get-or-create group, then AddDevice. -/
def AddConnection (cm : ConnectionManager) (conn : Connection) : ConnectionManager :=
  match alookup conn.clientID cm.clients with
  | some cg => { clients := assocSet cm.clients conn.clientID (AddDevice cg conn) }
  | none =>
      { clients := cm.clients ++ [(conn.clientID, AddDevice (NewClientGroup conn.clientID) conn)] }

/-- ConnectionManager.RemoveConnection: remove device, prune emptied group. -/
def RemoveConnection (cm : ConnectionManager) (clientID deviceID : String) :
    Bool × ConnectionManager :=
  match alookup clientID cm.clients with
  | none => (false, cm)
  | some cg =>
      let r := RemoveDevice cg deviceID
      if GetDeviceCount r.2 = 0 then
        (r.1, { clients := assocDel cm.clients clientID })
      else
        (r.1, { clients := assocSet cm.clients clientID r.2 })

/-- ConnectionManager.GetConnection. -/
def GetConnection (cm : ConnectionManager) (clientID deviceID : String) : Option Connection :=
  match alookup clientID cm.clients with
  | none => none
  | some cg => GetDevice cg deviceID

/-- ConnectionManager.GetClientGroup. -/
def GetClientGroup (cm : ConnectionManager) (clientID : String) : Option ClientGroup :=
  alookup clientID cm.clients

/-- ConnectionManager.GetAllClientIDs. -/
def GetAllClientIDs (cm : ConnectionManager) : List String :=
  cm.clients.map Prod.fst

/-- ConnectionManager.GetAllConnections. -/
def GetAllConnections (cm : ConnectionManager) : List Connection :=
  cm.clients.flatMap (fun p => GetAllDevices p.2)

/-- ConnectionManager.GetTotalDeviceCount. -/
def GetTotalDeviceCount (cm : ConnectionManager) : Nat :=
  cm.clients.foldl (fun acc p => acc + GetDeviceCount p.2) 0

/-- ConnectionManager.GetClientCount. -/
def GetClientCount (cm : ConnectionManager) : Nat :=
  cm.clients.length

/-- Modelled from the spec: ConnectionManager.GetConnectionByUniqueID is
called from handlers/connection_handler.go GetDeviceByUniqueID but its body
is not among the provided sources; the spec describes lookupByUniqueID as a
"linear fallback derivation, not a separate index", i.e. a linear scan of
all connections for a matching uniqueID. -/
def GetConnectionByUniqueID (cm : ConnectionManager) (uniqueID : String) : Option Connection :=
  (GetAllConnections cm).find? (fun conn => conn.uniqueID = uniqueID)

/-- Pointer mutation of the Connection stored at (clientID, deviceID): Go
handlers hold a *models.Connection obtained from the registry and write its
fields, which updates the stored object. -/
def updateConn (cm : ConnectionManager) (clientID deviceID : String)
    (f : Connection → Connection) : ConnectionManager :=
  { clients := cm.clients.map (fun p =>
      if p.1 = clientID then
        (p.1, { p.2 with devices := p.2.devices.map (fun q =>
          if q.1 = deviceID then (q.1, f q.2) else q) })
      else p) }

/-- handlers.RegisterDevice.  Errors are the fmt.Errorf messages.  The pair
carries the result and the registry state after the call. -/
def RegisterDevice (cm : ConnectionManager) (clientID deviceID serviceName : String)
    (now : Nat) : Except String Connection × ConnectionManager :=
  if clientID = "" then (.error "client_id is required", cm)
  else if deviceID = "" then (.error "device_id is required", cm)
  else
    let uniqueID := CreateUniqueID clientID deviceID
    match GetConnection cm clientID deviceID with
    | some existingConn => (.ok existingConn, cm)
    | none =>
        let conn : Connection :=
          { uniqueID := uniqueID
            clientID := clientID
            deviceID := deviceID
            serviceName := serviceName
            streamSet := false
            connectedAt := now
            lastNotificationAt := 0
            notificationCount := 0
            isActive := false
            lastHeartbeatAt := 0
            heartbeatFailCount := 0 }
        (.ok conn, AddConnection cm conn)

/-- handlers.UnregisterDevice. -/
def UnregisterDevice (cm : ConnectionManager) (clientID deviceID : String) :
    Except String Unit × ConnectionManager :=
  if clientID = "" ∨ deviceID = "" then
    (.error "client_id and device_id are required", cm)
  else
    match GetConnection cm clientID deviceID with
    | none => (.error ("device not found: " ++ CreateUniqueID clientID deviceID), cm)
    | some conn =>
        let cm2 :=
          if conn.streamSet ∧ conn.isActive then
            updateConn cm clientID deviceID
              (fun co => { co with isActive := false, streamSet := false })
          else cm
        let r := RemoveConnection cm2 clientID deviceID
        if r.1 then (.ok (), r.2)
        else (.error ("device not found: " ++ CreateUniqueID clientID deviceID), r.2)

/-- handlers.AttachStream: attach the stream capability to an existing
Connection. -/
def AttachStream (cm : ConnectionManager) (clientID deviceID : String) :
    Except String Unit × ConnectionManager :=
  match GetConnection cm clientID deviceID with
  | none =>
      (.error ("connection not found for client: " ++ clientID ++ ", device: " ++ deviceID), cm)
  | some _ =>
      (.ok (), updateConn cm clientID deviceID
        (fun co => { co with streamSet := true, isActive := true }))

/-- handlers.DetachStream: idempotent stream detach. -/
def DetachStream (cm : ConnectionManager) (clientID deviceID : String) : ConnectionManager :=
  match GetConnection cm clientID deviceID with
  | none => cm
  | some _ =>
      updateConn cm clientID deviceID
        (fun co => { co with streamSet := false, isActive := false })

/-- The attach phase of handlers.StreamNotifications: AttachStream followed
by the caller resetting the heartbeat bookkeeping on the same Connection
(conn.LastHeartbeatAt = time.Now(); conn.HeartbeatFailCount = 0).  This is
the code realisation of the spec operation attachStream. -/
def streamNotificationsAttach (cm : ConnectionManager) (clientID deviceID : String)
    (now : Nat) : Except String Unit × ConnectionManager :=
  match AttachStream cm clientID deviceID with
  | (.error e, cm2) => (.error e, cm2)
  | (.ok _, cm2) =>
      (.ok (), updateConn cm2 clientID deviceID
        (fun co => { co with lastHeartbeatAt := now, heartbeatFailCount := 0 }))

/-- handlers.GetClientDevices. -/
def GetClientDevices (cm : ConnectionManager) (clientID : String) :
    Except String (List Connection) :=
  match GetClientGroup cm clientID with
  | none => .error ("no devices found for clientt: " ++ clientID)
  | some cg => .ok (GetAllDevices cg)

/-- handlers.GetDeviceInfo. -/
def GetDeviceInfo (cm : ConnectionManager) (clientID deviceID : String) :
    Except String Connection :=
  match GetConnection cm clientID deviceID with
  | none => .error "device not found"
  | some conn => .ok conn

/-- handlers.GetDeviceByUniqueID. -/
def GetDeviceByUniqueID (cm : ConnectionManager) (uniqueID : String) :
    Except String Connection :=
  match GetConnectionByUniqueID cm uniqueID with
  | none => .error ("device not found: " ++ uniqueID)
  | some conn => .ok conn

/-- The per-device mutation applied on a successful notification send:
device.LastNotificationAt = time.Now(); device.NotificationCount++. -/
def notifUpdate (now : Nat) (co : Connection) : Connection :=
  { co with lastNotificationAt := now, notificationCount := co.notificationCount + 1 }

/-- One iteration of the device loop of handlers.SendNotificationToClient.
The accumulator is (registry, successCount, failCount); `ok` gives the
outcome of Stream.Send for a device, keyed by its uniqueID. -/
def sendStep (target : String) (ok : String → Bool) (now : Nat)
    (acc : ConnectionManager × Nat × Nat) (p : String × Connection) :
    ConnectionManager × Nat × Nat :=
  if p.2.streamSet ∧ p.2.isActive then
    if ok p.2.uniqueID then
      (updateConn acc.1 target p.1 (notifUpdate now), acc.2.1 + 1, acc.2.2)
    else
      (acc.1, acc.2.1, acc.2.2 + 1)
  else
    (acc.1, acc.2.1, acc.2.2 + 1)

/-- handlers.SendNotificationToClient.  Returns the call result together
with the registry state after the call and (successCount, failCount). -/
def SendNotificationToClient (cm : ConnectionManager) (target : String)
    (ok : String → Bool) (now : Nat) :
    Except String Unit × ConnectionManager × Nat × Nat :=
  match GetClientGroup cm target with
  | none => (.error ("no devices found for client: " ++ target), cm, 0, 0)
  | some cg =>
      let r := cg.devices.foldl (sendStep target ok now) (cm, 0, 0)
      if r.2.1 = 0 then
        (.error "failed to send notification to any device", r.1, r.2.1, r.2.2)
      else
        (.ok (), r.1, r.2.1, r.2.2)

/-- One iteration of the device loop of handlers.BroadcastToAll: inactive
devices are skipped silently, failures are logged only. -/
def broadcastStep (cid : String) (ok : String → Bool) (now : Nat)
    (acc : ConnectionManager × Nat) (p : String × Connection) :
    ConnectionManager × Nat :=
  if p.2.streamSet ∧ p.2.isActive then
    if ok p.2.uniqueID then
      (updateConn acc.1 cid p.1 (notifUpdate now), acc.2 + 1)
    else acc
  else acc

/-- One iteration of the client loop of handlers.BroadcastToAll.  The
accumulator is (registry, successCount, totalDevices). -/
def broadcastClient (ok : String → Bool) (now : Nat)
    (acc : ConnectionManager × Nat × Nat) (cid : String) :
    ConnectionManager × Nat × Nat :=
  match GetClientGroup acc.1 cid with
  | none => acc
  | some cg =>
      let r := cg.devices.foldl (broadcastStep cid ok now) (acc.1, acc.2.1)
      (r.1, r.2, acc.2.2 + cg.devices.length)

/-- handlers.BroadcastToAll: iterates the snapshot of all client ids, then
each client's devices; returns no error, only (successCount, totalDevices). -/
def BroadcastToAll (cm : ConnectionManager) (ok : String → Bool) (now : Nat) :
    ConnectionManager × Nat × Nat :=
  (GetAllClientIDs cm).foldl (broadcastClient ok now) (cm, 0, 0)

/-- One tick of handlers.sendHeartbeats for the supervisor bound to
(clientID, deviceID): returns the new registry state and whether the
supervisor task keeps running.  `ok` is the outcome of stream.Send for this
tick.  The Connection is read through the registry (the goroutine holds a
pointer to the stored object). -/
def heartbeatTick (cm : ConnectionManager) (clientID deviceID : String)
    (ok : Bool) (now : Nat) : ConnectionManager × Bool :=
  match GetConnection cm clientID deviceID with
  | none => (cm, false)
  | some conn =>
      if ¬ conn.isActive ∨ ¬ conn.streamSet then (cm, false)
      else if ok then
        (updateConn cm clientID deviceID
          (fun co => { co with heartbeatFailCount := 0, lastHeartbeatAt := now }), true)
      else
        let cm2 := updateConn cm clientID deviceID
          (fun co => { co with heartbeatFailCount := co.heartbeatFailCount + 1 })
        if conn.heartbeatFailCount + 1 ≥ 2 then
          ((UnregisterDevice cm2 clientID deviceID).2, false)
        else (cm2, true)

/-- Run the heartbeat supervisor over a list of tick outcomes
(sendOutcome, time); the task stops consuming ticks once it terminates. -/
def runHeartbeats (clientID deviceID : String) (cm : ConnectionManager) :
    List (Bool × Nat) → ConnectionManager
  | [] => cm
  | t :: rest =>
      let r := heartbeatTick cm clientID deviceID t.1 t.2
      if r.2 then runHeartbeats clientID deviceID r.1 rest else r.1

/-- The net per-device effect of one notification dispatch on a stored
Connection (both targeted and broadcast): mutated by notifUpdate exactly
when the device has an attached active stream and its send succeeds. -/
def deliverUpdate (ok : String → Bool) (now : Nat) (conn : Connection) : Connection :=
  if conn.streamSet ∧ conn.isActive ∧ ok conn.uniqueID then notifUpdate now conn else conn

/-- One registry operation, for stating invariants over every operation. -/
inductive Op where
  | register (clientID deviceID serviceName : String) (now : Nat)
  | unregister (clientID deviceID : String)
  | attach (clientID deviceID : String) (now : Nat)
  | detach (clientID deviceID : String)
  | send (target : String) (ok : String → Bool) (now : Nat)
  | broadcast (ok : String → Bool) (now : Nat)
  | hbTick (clientID deviceID : String) (ok : Bool) (now : Nat)

/-- The registry state after one operation. -/
def applyOp (op : Op) (cm : ConnectionManager) : ConnectionManager :=
  match op with
  | .register c d s now => (RegisterDevice cm c d s now).2
  | .unregister c d => (UnregisterDevice cm c d).2
  | .attach c d now => (streamNotificationsAttach cm c d now).2
  | .detach c d => DetachStream cm c d
  | .send t ok now => (SendNotificationToClient cm t ok now).2.1
  | .broadcast ok now => (BroadcastToAll cm ok now).1
  | .hbTick c d ok now => (heartbeatTick cm c d ok now).1

/-- A predicate holding of every Connection stored in the registry. -/
def DevPred (P : Connection → Prop) (cm : ConnectionManager) : Prop :=
  ∀ p ∈ cm.clients, ∀ q ∈ p.2.devices, P q.2

/-- Claim C5 invariant: isActive iff the send capability is set. -/
def ActiveIffStream (cm : ConnectionManager) : Prop :=
  DevPred (fun conn => conn.isActive = conn.streamSet) cm

/-- Claim C7 invariant: no client group persists with zero devices. -/
def GroupsNonempty (cm : ConnectionManager) : Prop :=
  ∀ p ∈ cm.clients, p.2.devices ≠ []

/-- Well-formedness of a registry state: client keys are distinct, device
keys within a group are distinct, and stored Connections carry the ids and
derived uniqueID of the slot they are stored in. -/
def WF (cm : ConnectionManager) : Prop :=
  (cm.clients.map Prod.fst).Nodup ∧
  ∀ p ∈ cm.clients, p.2.clientID = p.1 ∧
    (p.2.devices.map Prod.fst).Nodup ∧
    ∀ q ∈ p.2.devices,
      q.2.clientID = p.1 ∧ q.2.deviceID = q.1 ∧ q.2.uniqueID = CreateUniqueID p.1 q.1

/-! ### Association-list lemmas -/

theorem alookup_eq_none_of_all_ne {l : List (String × α)} {k : String}
    (h : ∀ p ∈ l, p.1 ≠ k) : alookup k l = none := by
  induction l with
  | nil => rfl
  | cons p rest ih =>
      simp only [alookup]
      rw [if_neg (h p (List.mem_cons_self p rest))]
      exact ih (fun q hq => h q (List.mem_cons_of_mem p hq))

theorem alookup_append_of_none {l₁ l₂ : List (String × α)} {k : String}
    (h : alookup k l₁ = none) : alookup k (l₁ ++ l₂) = alookup k l₂ := by
  induction l₁ with
  | nil => rfl
  | cons p rest ih =>
      simp only [alookup] at h ⊢
      by_cases hp : p.1 = k
      · rw [if_pos hp] at h; exact absurd h (by simp)
      · rw [if_neg hp] at h ⊢; exact ih h

theorem alookup_append_of_some {l₁ l₂ : List (String × α)} {k : String} {v : α}
    (h : alookup k l₁ = some v) : alookup k (l₁ ++ l₂) = some v := by
  induction l₁ with
  | nil => simp [alookup] at h
  | cons p rest ih =>
      simp only [alookup] at h ⊢
      by_cases hp : p.1 = k
      · rw [if_pos hp] at h ⊢; exact h
      · rw [if_neg hp] at h ⊢; exact ih h

theorem alookup_mem {l : List (String × α)} {k : String} {v : α}
    (h : alookup k l = some v) : (k, v) ∈ l := by
  induction l with
  | nil => simp [alookup] at h
  | cons p rest ih =>
      simp only [alookup] at h
      by_cases hp : p.1 = k
      · rw [if_pos hp] at h
        have hv : p.2 = v := by injection h
        have hpe : p = (k, v) := by
          obtain ⟨a, b⟩ := p
          simp only at hp hv
          rw [hp, hv]
        rw [hpe]
        exact List.mem_cons_self _ _
      · rw [if_neg hp] at h
        exact List.mem_cons_of_mem p (ih h)

theorem alookup_isSome_of_any {l : List (String × α)} {k : String}
    (h : l.any (fun p => p.1 = k) = true) : (alookup k l).isSome := by
  induction l with
  | nil => simp at h
  | cons p rest ih =>
      simp only [List.any_cons, Bool.or_eq_true] at h
      simp only [alookup]
      by_cases hp : p.1 = k
      · rw [if_pos hp]; rfl
      · rw [if_neg hp]
        rcases h with h | h
        · exact absurd (by simpa using h) hp
        · exact ih h

theorem alookup_map_keyfix {l : List (String × α)} {F : String × α → String × α}
    (hF : ∀ p, (F p).1 = p.1) (k : String) :
    alookup k (l.map F) = (alookup k l).map (fun v => (F (k, v)).2) := by
  induction l with
  | nil => rfl
  | cons p rest ih =>
      simp only [List.map_cons, alookup, hF p]
      by_cases hp : p.1 = k
      · rw [if_pos hp, if_pos hp]
        obtain ⟨a, b⟩ := p
        simp only at hp
        subst hp
        rfl
      · rw [if_neg hp, if_neg hp]
        exact ih

theorem alookup_assocSet_self (l : List (String × α)) (k : String) (v : α) :
    alookup k (assocSet l k v) = some v := by
  unfold assocSet
  by_cases h : l.any (fun p => p.1 = k) = true
  · rw [if_pos h]
    have hF : ∀ p : String × α, ((if p.1 = k then (k, v) else p) : String × α).1 = p.1 := by
      intro p; by_cases hp : p.1 = k
      · rw [if_pos hp]; exact hp.symm
      · rw [if_neg hp]
    rw [alookup_map_keyfix hF]
    have := alookup_isSome_of_any h
    obtain ⟨w, hw⟩ := Option.isSome_iff_exists.mp this
    rw [hw]
    simp
  · rw [if_neg h]
    have hnone : alookup k l = none := by
      apply alookup_eq_none_of_all_ne
      intro p hp
      have := List.any_eq_false.mp (Bool.eq_false_iff.mpr (fun hc => h hc)) p hp
      simpa using this
    rw [alookup_append_of_none hnone]
    simp [alookup]

theorem alookup_assocSet_ne (l : List (String × α)) {k' k : String} (v : α)
    (h : k' ≠ k) : alookup k' (assocSet l k v) = alookup k' l := by
  unfold assocSet
  by_cases hany : l.any (fun p => p.1 = k) = true
  · rw [if_pos hany]
    have hF : ∀ p : String × α, ((if p.1 = k then (k, v) else p) : String × α).1 = p.1 := by
      intro p; by_cases hp : p.1 = k
      · rw [if_pos hp]; exact hp.symm
      · rw [if_neg hp]
    rw [alookup_map_keyfix hF]
    cases alookup k' l with
    | none => rfl
    | some w => simp [h]
  · rw [if_neg hany]
    cases hc : alookup k' l with
    | some w => exact alookup_append_of_some hc
    | none =>
        rw [alookup_append_of_none hc]
        simp only [alookup]
        rw [if_neg (fun hc2 => h hc2.symm)]

theorem alookup_assocDel_self (l : List (String × α)) (k : String) :
    alookup k (assocDel l k) = none := by
  apply alookup_eq_none_of_all_ne
  intro p hp
  have := List.mem_filter.mp hp
  simpa using this.2

theorem alookup_assocDel_ne (l : List (String × α)) {k' k : String}
    (h : k' ≠ k) : alookup k' (assocDel l k) = alookup k' l := by
  induction l with
  | nil => rfl
  | cons p rest ih =>
      simp only [assocDel, List.filter_cons] at ih ⊢
      by_cases hp : p.1 = k
      · simp only [hp]
        rw [if_neg (by simp)]
        simp only [alookup]
        rw [if_neg (by rw [hp]; exact fun hc => h hc.symm)]
        exact ih
      · rw [if_pos (by simpa using hp)]
        simp only [alookup]
        by_cases hp' : p.1 = k'
        · rw [if_pos hp', if_pos hp']
        · rw [if_neg hp', if_neg hp']
          exact ih

theorem mem_assocSet {l : List (String × α)} {k : String} {v : α} {p : String × α}
    (h : p ∈ assocSet l k v) : p ∈ l ∨ p = (k, v) := by
  unfold assocSet at h
  by_cases hany : l.any (fun q => q.1 = k) = true
  · rw [if_pos hany] at h
    obtain ⟨q, hq, hqe⟩ := List.mem_map.mp h
    by_cases hk : q.1 = k
    · rw [if_pos hk] at hqe; right; exact hqe.symm
    · rw [if_neg hk] at hqe; left; exact hqe ▸ hq
  · rw [if_neg hany] at h
    rcases List.mem_append.mp h with h | h
    · left; exact h
    · right; simpa using h

theorem mem_assocDel {l : List (String × α)} {k : String} {p : String × α}
    (h : p ∈ assocDel l k) : p ∈ l :=
  (List.mem_filter.mp h).1

theorem keys_assocSet_of_any {l : List (String × α)} {k : String} (v : α)
    (h : l.any (fun p => p.1 = k) = true) :
    (assocSet l k v).map Prod.fst = l.map Prod.fst := by
  unfold assocSet
  rw [if_pos h, List.map_map]
  apply List.map_congr_left
  intro p _
  by_cases hp : p.1 = k
  · simp [hp]
  · simp [hp]

theorem keys_assocSet_of_not_any {l : List (String × α)} {k : String} (v : α)
    (h : ¬ l.any (fun p => p.1 = k) = true) :
    (assocSet l k v).map Prod.fst = l.map Prod.fst ++ [k] := by
  unfold assocSet
  rw [if_neg h]
  simp

/-! ### Registry lookup lemmas -/

theorem GetConnection_eq_bind (cm : ConnectionManager) (c d : String) :
    GetConnection cm c d = (GetClientGroup cm c).bind (fun cg => GetDevice cg d) := by
  unfold GetConnection GetClientGroup
  cases alookup c cm.clients <;> rfl

theorem GetClientGroup_updateConn_self (cm : ConnectionManager) (c d : String)
    (f : Connection → Connection) :
    GetClientGroup (updateConn cm c d f) c =
      (GetClientGroup cm c).map (fun cg =>
        { cg with devices := cg.devices.map (fun q => if q.1 = d then (q.1, f q.2) else q) }) := by
  unfold GetClientGroup updateConn
  rw [alookup_map_keyfix (by
    intro p
    by_cases hp : p.1 = c
    · simp [hp]
    · simp [hp]) c]
  cases alookup c cm.clients with
  | none => rfl
  | some cg => simp

theorem GetClientGroup_updateConn_ne (cm : ConnectionManager) {c' c : String}
    (d : String) (f : Connection → Connection) (h : c' ≠ c) :
    GetClientGroup (updateConn cm c d f) c' = GetClientGroup cm c' := by
  unfold GetClientGroup updateConn
  rw [alookup_map_keyfix (by
    intro p
    by_cases hp : p.1 = c
    · simp [hp]
    · simp [hp]) c']
  cases alookup c' cm.clients with
  | none => rfl
  | some cg => simp [h]

theorem GetDevice_mapUpdate_self (cg : ClientGroup) (d : String)
    (f : Connection → Connection) :
    GetDevice { cg with devices := cg.devices.map (fun q => if q.1 = d then (q.1, f q.2) else q) } d
      = (GetDevice cg d).map f := by
  unfold GetDevice
  simp only
  rw [alookup_map_keyfix (by
    intro q
    by_cases hq : q.1 = d
    · simp [hq]
    · simp [hq]) d]
  cases alookup d cg.devices with
  | none => rfl
  | some v => simp

theorem GetDevice_mapUpdate_ne (cg : ClientGroup) {d' d : String}
    (f : Connection → Connection) (h : d' ≠ d) :
    GetDevice { cg with devices := cg.devices.map (fun q => if q.1 = d then (q.1, f q.2) else q) } d'
      = GetDevice cg d' := by
  unfold GetDevice
  simp only
  rw [alookup_map_keyfix (by
    intro q
    by_cases hq : q.1 = d
    · simp [hq]
    · simp [hq]) d']
  cases alookup d' cg.devices with
  | none => rfl
  | some v => simp [h]

theorem GetConnection_updateConn_self (cm : ConnectionManager) (c d : String)
    (f : Connection → Connection) :
    GetConnection (updateConn cm c d f) c d = (GetConnection cm c d).map f := by
  rw [GetConnection_eq_bind, GetConnection_eq_bind, GetClientGroup_updateConn_self]
  cases GetClientGroup cm c with
  | none => rfl
  | some cg => exact GetDevice_mapUpdate_self cg d f

theorem GetConnection_updateConn_other (cm : ConnectionManager) {c' c d' d : String}
    (f : Connection → Connection) (h : ¬ (c' = c ∧ d' = d)) :
    GetConnection (updateConn cm c d f) c' d' = GetConnection cm c' d' := by
  by_cases hc : c' = c
  · subst hc
    have hd : d' ≠ d := fun hd => h ⟨rfl, hd⟩
    rw [GetConnection_eq_bind, GetConnection_eq_bind, GetClientGroup_updateConn_self]
    cases GetClientGroup cm c' with
    | none => rfl
    | some cg => exact GetDevice_mapUpdate_ne cg f hd
  · rw [GetConnection_eq_bind, GetConnection_eq_bind,
      GetClientGroup_updateConn_ne cm d f hc]

theorem GetClientGroup_AddConnection_self (cm : ConnectionManager) (conn : Connection) :
    GetClientGroup (AddConnection cm conn) conn.clientID =
      some (AddDevice ((alookup conn.clientID cm.clients).getD (NewClientGroup conn.clientID)) conn) := by
  unfold GetClientGroup AddConnection
  cases h : alookup conn.clientID cm.clients with
  | some cg =>
      simp only [h, Option.getD_some]
      exact alookup_assocSet_self _ _ _
  | none =>
      simp only [h, Option.getD_none]
      rw [alookup_append_of_none h]
      simp [alookup]

theorem GetConnection_AddConnection_self (cm : ConnectionManager) (conn : Connection) :
    GetConnection (AddConnection cm conn) conn.clientID conn.deviceID = some conn := by
  rw [GetConnection_eq_bind, GetClientGroup_AddConnection_self]
  exact alookup_assocSet_self _ _ _

theorem GetConnection_RemoveConnection_self (cm : ConnectionManager) (c d : String) :
    GetConnection (RemoveConnection cm c d).2 c d = none := by
  rw [GetConnection_eq_bind]
  unfold RemoveConnection
  cases h : alookup c cm.clients with
  | none =>
      simp only [h]
      unfold GetClientGroup
      rw [h]
      rfl
  | some cg =>
      simp only [h]
      by_cases hz : GetDeviceCount (RemoveDevice cg d).2 = 0
      · rw [if_pos hz]
        unfold GetClientGroup
        simp only
        rw [alookup_assocDel_self]
        rfl
      · rw [if_neg hz]
        unfold GetClientGroup
        simp only
        rw [alookup_assocSet_self]
        unfold RemoveDevice
        cases hl : alookup d cg.devices with
        | some v =>
            simp only [hl]
            exact alookup_assocDel_self _ _
        | none =>
            simp only [hl]
            exact hl

/-! ### Membership and well-formedness lemmas -/

theorem mem_GetAllConnections_iff {cm : ConnectionManager} {q : Connection} :
    q ∈ GetAllConnections cm ↔ ∃ p ∈ cm.clients, ∃ r ∈ p.2.devices, r.2 = q := by
  simp [GetAllConnections, GetAllDevices, List.mem_flatMap, List.mem_map]

theorem alookup_of_mem_nodup {l : List (String × α)} {k : String} {v : α}
    (hmem : (k, v) ∈ l) (hnd : (l.map Prod.fst).Nodup) : alookup k l = some v := by
  induction l with
  | nil => simp at hmem
  | cons p rest ih =>
      simp only [List.map_cons, List.nodup_cons] at hnd
      rcases List.mem_cons.mp hmem with h | h
      · simp [alookup, ← h]
      · have hk : k ∈ rest.map Prod.fst :=
          List.mem_map.mpr ⟨(k, v), h, rfl⟩
        have hne : p.1 ≠ k := fun hc => hnd.1 (hc ▸ hk)
        simp only [alookup]
        rw [if_neg hne]
        exact ih h hnd.2

theorem any_key_of_alookup_some {l : List (String × α)} {k : String} {v : α}
    (h : alookup k l = some v) : l.any (fun p => p.1 = k) = true := by
  induction l with
  | nil => simp [alookup] at h
  | cons p rest ih =>
      simp only [alookup] at h
      simp only [List.any_cons, Bool.or_eq_true]
      by_cases hp : p.1 = k
      · left; simpa using hp
      · rw [if_neg hp] at h
        right; exact ih h

theorem WF_lookup_ids {cm : ConnectionManager} {c d : String} {conn : Connection}
    (hWF : WF cm) (h : GetConnection cm c d = some conn) :
    conn.clientID = c ∧ conn.deviceID = d ∧ conn.uniqueID = CreateUniqueID c d := by
  unfold GetConnection at h
  cases hg : alookup c cm.clients with
  | none => rw [hg] at h; exact absurd h (by simp)
  | some cg =>
      rw [hg] at h
      unfold GetDevice at h
      have hgm : (c, cg) ∈ cm.clients := alookup_mem hg
      have hdm : (d, conn) ∈ cg.devices := alookup_mem h
      have := (hWF.2 (c, cg) hgm).2.2 (d, conn) hdm
      exact this

theorem WF_mem_lookup {cm : ConnectionManager} {q : Connection}
    (hWF : WF cm) (hq : q ∈ GetAllConnections cm) :
    GetConnection cm q.clientID q.deviceID = some q := by
  obtain ⟨p, hp, r, hr, hrq⟩ := mem_GetAllConnections_iff.mp hq
  obtain ⟨hcid, hnd, hdev⟩ := hWF.2 p hp
  obtain ⟨hqc, hqd, _⟩ := hdev r hr
  have hqc2 : q.clientID = p.1 := by rw [← hrq]; exact hqc
  have hqd2 : q.deviceID = r.1 := by rw [← hrq]; exact hqd
  have hg : alookup q.clientID cm.clients = some p.2 := by
    rw [hqc2]
    exact alookup_of_mem_nodup hp hWF.1
  unfold GetConnection
  rw [hg]
  show alookup q.deviceID p.2.devices = some q
  rw [hqd2]
  have hmem : (r.1, q) ∈ p.2.devices := by rw [← hrq]; exact hr
  exact alookup_of_mem_nodup hmem hnd

theorem mem_GetAllConnections_updateConn {cm : ConnectionManager} {c d : String}
    {f : Connection → Connection} {q : Connection}
    (h : q ∈ GetAllConnections (updateConn cm c d f)) :
    ∃ q0 ∈ GetAllConnections cm, q = q0 ∨ q = f q0 := by
  obtain ⟨p, hp, r, hr, hrq⟩ := mem_GetAllConnections_iff.mp h
  unfold updateConn at hp
  simp only [List.mem_map] at hp
  obtain ⟨p0, hp0, hpe⟩ := hp
  by_cases hc : p0.1 = c
  · rw [if_pos hc] at hpe
    subst hpe
    simp only [List.mem_map] at hr
    obtain ⟨r0, hr0, hre⟩ := hr
    by_cases hd : r0.1 = d
    · rw [if_pos hd] at hre
      refine ⟨r0.2, mem_GetAllConnections_iff.mpr ⟨p0, hp0, r0, hr0, rfl⟩, ?_⟩
      right
      rw [← hrq, ← hre]
    · rw [if_neg hd] at hre
      refine ⟨r0.2, mem_GetAllConnections_iff.mpr ⟨p0, hp0, r0, hr0, rfl⟩, ?_⟩
      left
      rw [← hrq, ← hre]
  · rw [if_neg hc] at hpe
    subst hpe
    exact ⟨q, mem_GetAllConnections_iff.mpr ⟨p0, hp0, r, hr, hrq⟩, Or.inl rfl⟩

theorem mem_GetAllConnections_RemoveConnection {cm : ConnectionManager} {c d : String}
    {q : Connection} (h : q ∈ GetAllConnections (RemoveConnection cm c d).2) :
    q ∈ GetAllConnections cm := by
  unfold RemoveConnection at h
  cases hg : alookup c cm.clients with
  | none => rw [hg] at h; exact h
  | some cg =>
      simp only [hg] at h
      by_cases hz : GetDeviceCount (RemoveDevice cg d).2 = 0
      · rw [if_pos hz] at h
        obtain ⟨p, hp, r, hr, hrq⟩ := mem_GetAllConnections_iff.mp h
        exact mem_GetAllConnections_iff.mpr ⟨p, mem_assocDel hp, r, hr, hrq⟩
      · rw [if_neg hz] at h
        obtain ⟨p, hp, r, hr, hrq⟩ := mem_GetAllConnections_iff.mp h
        rcases mem_assocSet hp with hp | hp
        · exact mem_GetAllConnections_iff.mpr ⟨p, hp, r, hr, hrq⟩
        · subst hp
          have hcg : (c, cg) ∈ cm.clients := alookup_mem hg
          unfold RemoveDevice at hr
          cases hl : alookup d cg.devices with
          | some v =>
              rw [hl] at hr
              simp only at hr
              exact mem_GetAllConnections_iff.mpr ⟨(c, cg), hcg, r, mem_assocDel hr, hrq⟩
          | none =>
              rw [hl] at hr
              simp only at hr
              exact mem_GetAllConnections_iff.mpr ⟨(c, cg), hcg, r, hr, hrq⟩

theorem mem_GetAllConnections_AddConnection {cm : ConnectionManager} {conn : Connection}
    {q : Connection} (h : q ∈ GetAllConnections (AddConnection cm conn)) :
    q ∈ GetAllConnections cm ∨ q = conn := by
  unfold AddConnection at h
  cases hg : alookup conn.clientID cm.clients with
  | some cg =>
      rw [hg] at h
      obtain ⟨p, hp, r, hr, hrq⟩ := mem_GetAllConnections_iff.mp h
      rcases mem_assocSet hp with hp | hp
      · exact Or.inl (mem_GetAllConnections_iff.mpr ⟨p, hp, r, hr, hrq⟩)
      · subst hp
        have hcg : (conn.clientID, cg) ∈ cm.clients := alookup_mem hg
        unfold AddDevice at hr
        simp only at hr
        rcases mem_assocSet hr with hr | hr
        · exact Or.inl (mem_GetAllConnections_iff.mpr ⟨(conn.clientID, cg), hcg, r, hr, hrq⟩)
        · right; rw [← hrq, hr]
  | none =>
      rw [hg] at h
      obtain ⟨p, hp, r, hr, hrq⟩ := mem_GetAllConnections_iff.mp h
      rcases List.mem_append.mp hp with hp | hp
      · exact Or.inl (mem_GetAllConnections_iff.mpr ⟨p, hp, r, hr, hrq⟩)
      · have hpe : p = (conn.clientID, AddDevice (NewClientGroup conn.clientID) conn) := by
          simpa using hp
        subst hpe
        unfold AddDevice NewClientGroup assocSet at hr
        simp only [List.any_nil] at hr
        simp only [Bool.false_eq_true, if_false, List.nil_append] at hr
        have : r = (conn.deviceID, conn) := by simpa using hr
        right
        rw [← hrq, this]

/-- A Connection mutation that does not touch the identity fields. -/
def IdPres (f : Connection → Connection) : Prop :=
  ∀ x, (f x).clientID = x.clientID ∧ (f x).deviceID = x.deviceID ∧ (f x).uniqueID = x.uniqueID

theorem not_mem_keys_of_alookup_none {l : List (String × α)} {k : String}
    (h : alookup k l = none) : k ∉ l.map Prod.fst := by
  intro hmem
  obtain ⟨p, hp, hpe⟩ := List.mem_map.mp hmem
  have : l.any (fun q => q.1 = k) = true := by
    apply List.any_eq_true.mpr
    exact ⟨p, hp, by simpa using hpe⟩
  have := alookup_isSome_of_any this
  rw [h] at this
  simp at this

theorem WF_updateConn {cm : ConnectionManager} {c d : String} {f : Connection → Connection}
    (hf : IdPres f) (hWF : WF cm) : WF (updateConn cm c d f) := by
  constructor
  · show ((cm.clients.map _).map Prod.fst).Nodup
    rw [List.map_map]
    have : cm.clients.map (Prod.fst ∘ (fun p =>
        if p.1 = c then
          (p.1, { p.2 with devices := p.2.devices.map (fun q =>
            if q.1 = d then (q.1, f q.2) else q) })
        else p)) = cm.clients.map Prod.fst := by
      apply List.map_congr_left
      intro p _
      by_cases hp : p.1 = c <;> simp [hp]
    rw [this]
    exact hWF.1
  · intro p hp
    obtain ⟨p0, hp0, hpe⟩ := List.mem_map.mp hp
    obtain ⟨hcid0, hnd0, hdev0⟩ := hWF.2 p0 hp0
    by_cases hc : p0.1 = c
    · rw [if_pos hc] at hpe
      subst hpe
      refine ⟨hcid0, ?_, ?_⟩
      · show ((p0.2.devices.map _).map Prod.fst).Nodup
        rw [List.map_map]
        have : p0.2.devices.map (Prod.fst ∘ (fun q =>
            if q.1 = d then (q.1, f q.2) else q)) = p0.2.devices.map Prod.fst := by
          apply List.map_congr_left
          intro q _
          by_cases hq : q.1 = d <;> simp [hq]
        rw [this]
        exact hnd0
      · intro q hq
        obtain ⟨q0, hq0, hqe⟩ := List.mem_map.mp hq
        obtain ⟨ha, hb, hc2⟩ := hdev0 q0 hq0
        by_cases hd : q0.1 = d
        · rw [if_pos hd] at hqe
          subst hqe
          exact ⟨(hf q0.2).1.trans ha, (hf q0.2).2.1.trans hb, (hf q0.2).2.2.trans hc2⟩
        · rw [if_neg hd] at hqe
          subst hqe
          exact ⟨ha, hb, hc2⟩
    · rw [if_neg hc] at hpe
      subst hpe
      exact ⟨hcid0, hnd0, hdev0⟩

theorem WF_RemoveConnection {cm : ConnectionManager} {c d : String}
    (hWF : WF cm) : WF (RemoveConnection cm c d).2 := by
  unfold RemoveConnection
  cases hg : alookup c cm.clients with
  | none => exact hWF
  | some cg =>
      simp only
      by_cases hz : GetDeviceCount (RemoveDevice cg d).2 = 0
      · rw [if_pos hz]
        constructor
        · have hsub : List.Sublist ((assocDel cm.clients c).map Prod.fst)
              (cm.clients.map Prod.fst) :=
            List.Sublist.map Prod.fst (List.filter_sublist cm.clients)
          exact hWF.1.sublist hsub
        · intro p hp
          exact hWF.2 p (mem_assocDel hp)
      · rw [if_neg hz]
        constructor
        · show ((assocSet cm.clients c _).map Prod.fst).Nodup
          rw [keys_assocSet_of_any _ (any_key_of_alookup_some hg)]
          exact hWF.1
        · intro p hp
          rcases mem_assocSet hp with hp | hp
          · exact hWF.2 p hp
          · subst hp
            obtain ⟨hcid, hnd, hdev⟩ := hWF.2 (c, cg) (alookup_mem hg)
            unfold RemoveDevice
            cases hl : alookup d cg.devices with
            | some v =>
                simp only
                refine ⟨hcid, ?_, ?_⟩
                · have hsub : List.Sublist ((assocDel cg.devices d).map Prod.fst)
                      (cg.devices.map Prod.fst) :=
                    List.Sublist.map Prod.fst (List.filter_sublist cg.devices)
                  exact hnd.sublist hsub
                · intro q hq
                  exact hdev q (mem_assocDel hq)
            | none =>
                simp only
                exact ⟨hcid, hnd, hdev⟩

theorem WF_AddConnection {cm : ConnectionManager} {conn : Connection}
    (huid : conn.uniqueID = CreateUniqueID conn.clientID conn.deviceID)
    (hWF : WF cm) : WF (AddConnection cm conn) := by
  unfold AddConnection
  cases hg : alookup conn.clientID cm.clients with
  | some cg =>
      obtain ⟨hcid, hnd, hdev⟩ := hWF.2 (conn.clientID, cg) (alookup_mem hg)
      constructor
      · show ((assocSet cm.clients conn.clientID _).map Prod.fst).Nodup
        rw [keys_assocSet_of_any _ (any_key_of_alookup_some hg)]
        exact hWF.1
      · intro p hp
        rcases mem_assocSet hp with hp | hp
        · exact hWF.2 p hp
        · subst hp
          unfold AddDevice
          simp only
          refine ⟨hcid, ?_, ?_⟩
          · by_cases hany : cg.devices.any (fun q => q.1 = conn.deviceID) = true
            · rw [keys_assocSet_of_any _ hany]
              exact hnd
            · rw [keys_assocSet_of_not_any _ hany]
              have hnomem : conn.deviceID ∉ cg.devices.map Prod.fst := by
                intro hmem
                obtain ⟨q, hq, hqe⟩ := List.mem_map.mp hmem
                exact hany (List.any_eq_true.mpr ⟨q, hq, by simpa using hqe⟩)
              simp [List.nodup_append, hnd, hnomem]
          · intro q hq
            rcases mem_assocSet hq with hq | hq
            · exact hdev q hq
            · subst hq
              exact ⟨rfl, rfl, huid⟩
  | none =>
      constructor
      · show ((cm.clients ++ _).map Prod.fst).Nodup
        rw [List.map_append]
        have hnomem := not_mem_keys_of_alookup_none hg
        simp [List.nodup_append, hWF.1, hnomem]
      · intro p hp
        rcases List.mem_append.mp hp with hp | hp
        · exact hWF.2 p hp
        · have hpe : p = (conn.clientID, AddDevice (NewClientGroup conn.clientID) conn) := by
            simpa using hp
          subst hpe
          refine ⟨rfl, ?_, ?_⟩
          · show ((assocSet [] conn.deviceID conn).map Prod.fst).Nodup
            simp [assocSet]
          · intro q hq
            have hqe : q = (conn.deviceID, conn) := by
              have : assocSet ([] : List (String × Connection)) conn.deviceID conn
                  = [(conn.deviceID, conn)] := by simp [assocSet]
              rw [show (AddDevice (NewClientGroup conn.clientID) conn).devices
                  = assocSet [] conn.deviceID conn from rfl, this] at hq
              simpa using hq
            subst hqe
            exact ⟨rfl, rfl, huid⟩

/-! ### Preservation of per-device predicates and group nonemptiness -/

theorem DevPred_iff_all {P : Connection → Prop} {cm : ConnectionManager} :
    DevPred P cm ↔ ∀ q ∈ GetAllConnections cm, P q := by
  constructor
  · intro h q hq
    obtain ⟨p, hp, r, hr, hrq⟩ := mem_GetAllConnections_iff.mp hq
    rw [← hrq]
    exact h p hp r hr
  · intro h p hp r hr
    exact h r.2 (mem_GetAllConnections_iff.mpr ⟨p, hp, r, hr, rfl⟩)

theorem DevPred_updateConn {P : Connection → Prop} {cm : ConnectionManager}
    {c d : String} {f : Connection → Connection}
    (hf : ∀ x, P x → P (f x)) (h : DevPred P cm) : DevPred P (updateConn cm c d f) := by
  rw [DevPred_iff_all] at h ⊢
  intro q hq
  obtain ⟨q0, hq0, hqe⟩ := mem_GetAllConnections_updateConn hq
  rcases hqe with hqe | hqe
  · rw [hqe]; exact h q0 hq0
  · rw [hqe]; exact hf q0 (h q0 hq0)

theorem DevPred_RemoveConnection {P : Connection → Prop} {cm : ConnectionManager}
    {c d : String} (h : DevPred P cm) : DevPred P (RemoveConnection cm c d).2 := by
  rw [DevPred_iff_all] at h ⊢
  intro q hq
  exact h q (mem_GetAllConnections_RemoveConnection hq)

theorem DevPred_AddConnection {P : Connection → Prop} {cm : ConnectionManager}
    {conn : Connection} (hP : P conn) (h : DevPred P cm) :
    DevPred P (AddConnection cm conn) := by
  rw [DevPred_iff_all] at h ⊢
  intro q hq
  rcases mem_GetAllConnections_AddConnection hq with hq | rfl
  · exact h q hq
  · exact hP

theorem assocSet_ne_nil (l : List (String × α)) (k : String) (v : α) :
    assocSet l k v ≠ [] := by
  unfold assocSet
  by_cases hany : l.any (fun p => p.1 = k) = true
  · rw [if_pos hany]
    obtain ⟨p, hp, _⟩ := List.any_eq_true.mp hany
    intro h
    rw [List.map_eq_nil_iff] at h
    rw [h] at hp
    simp at hp
  · rw [if_neg hany]
    simp

theorem GN_updateConn {cm : ConnectionManager} {c d : String}
    {f : Connection → Connection} (h : GroupsNonempty cm) :
    GroupsNonempty (updateConn cm c d f) := by
  intro p hp
  obtain ⟨p0, hp0, hpe⟩ := List.mem_map.mp hp
  by_cases hc : p0.1 = c
  · rw [if_pos hc] at hpe
    subst hpe
    intro hnil
    simp only [List.map_eq_nil_iff] at hnil
    exact h p0 hp0 hnil
  · rw [if_neg hc] at hpe
    subst hpe
    exact h p0 hp0

theorem GN_RemoveConnection {cm : ConnectionManager} {c d : String}
    (h : GroupsNonempty cm) : GroupsNonempty (RemoveConnection cm c d).2 := by
  unfold RemoveConnection
  cases hg : alookup c cm.clients with
  | none => exact h
  | some cg =>
      simp only
      by_cases hz : GetDeviceCount (RemoveDevice cg d).2 = 0
      · rw [if_pos hz]
        intro p hp
        exact h p (mem_assocDel hp)
      · rw [if_neg hz]
        intro p hp
        rcases mem_assocSet hp with hp | hp
        · exact h p hp
        · subst hp
          intro hnil
          apply hz
          show (RemoveDevice cg d).2.devices.length = 0
          rw [hnil]
          rfl

theorem GN_AddConnection {cm : ConnectionManager} {conn : Connection}
    (h : GroupsNonempty cm) : GroupsNonempty (AddConnection cm conn) := by
  unfold AddConnection
  cases hg : alookup conn.clientID cm.clients with
  | some cg =>
      intro p hp
      rcases mem_assocSet hp with hp | hp
      · exact h p hp
      · subst hp
        exact assocSet_ne_nil _ _ _
  | none =>
      intro p hp
      rcases List.mem_append.mp hp with hp | hp
      · exact h p hp
      · have hpe : p = (conn.clientID, AddDevice (NewClientGroup conn.clientID) conn) := by
          simpa using hp
        subst hpe
        show (AddDevice (NewClientGroup conn.clientID) conn).devices ≠ []
        exact assocSet_ne_nil (NewClientGroup conn.clientID).devices conn.deviceID conn

/-! ### Preservation through the dispatch folds -/

theorem foldl_sendStep_pres (M : ConnectionManager → Prop) (t : String)
    (ok : String → Bool) (now : Nat)
    (hM : ∀ cm c d, M cm → M (updateConn cm c d (notifUpdate now))) :
    ∀ (ds : List (String × Connection)) (acc : ConnectionManager × Nat × Nat),
      M acc.1 → M ((ds.foldl (sendStep t ok now) acc)).1 := by
  intro ds
  induction ds with
  | nil => intro acc h; exact h
  | cons p rest ih =>
      intro acc h
      simp only [List.foldl_cons]
      apply ih
      unfold sendStep
      by_cases h1 : (p.2.streamSet ∧ p.2.isActive)
      · rw [if_pos h1]
        by_cases h2 : ok p.2.uniqueID = true
        · rw [if_pos h2]
          exact hM acc.1 t p.1 h
        · rw [if_neg h2]
          exact h
      · rw [if_neg h1]
        exact h

theorem foldl_broadcastStep_pres (M : ConnectionManager → Prop) (cid : String)
    (ok : String → Bool) (now : Nat)
    (hM : ∀ cm c d, M cm → M (updateConn cm c d (notifUpdate now))) :
    ∀ (ds : List (String × Connection)) (acc : ConnectionManager × Nat),
      M acc.1 → M ((ds.foldl (broadcastStep cid ok now) acc)).1 := by
  intro ds
  induction ds with
  | nil => intro acc h; exact h
  | cons p rest ih =>
      intro acc h
      simp only [List.foldl_cons]
      apply ih
      unfold broadcastStep
      by_cases h1 : (p.2.streamSet ∧ p.2.isActive)
      · rw [if_pos h1]
        by_cases h2 : ok p.2.uniqueID = true
        · rw [if_pos h2]
          exact hM acc.1 cid p.1 h
        · rw [if_neg h2]
          exact h
      · rw [if_neg h1]
        exact h

theorem foldl_broadcastClient_pres (M : ConnectionManager → Prop)
    (ok : String → Bool) (now : Nat)
    (hM : ∀ cm c d, M cm → M (updateConn cm c d (notifUpdate now))) :
    ∀ (ids : List String) (acc : ConnectionManager × Nat × Nat),
      M acc.1 → M ((ids.foldl (broadcastClient ok now) acc)).1 := by
  intro ids
  induction ids with
  | nil => intro acc h; exact h
  | cons cid rest ih =>
      intro acc h
      simp only [List.foldl_cons]
      apply ih
      unfold broadcastClient
      cases GetClientGroup acc.1 cid with
      | none => exact h
      | some cg =>
          exact foldl_broadcastStep_pres M cid ok now hM cg.devices (acc.1, acc.2.1) h

/-! ### Operation state characterisations -/

/-- The fresh Connection built by RegisterDevice (Go zero values for the
fields the handler does not set). -/
def freshConn (clientID deviceID serviceName : String) (now : Nat) : Connection :=
  { uniqueID := CreateUniqueID clientID deviceID
    clientID := clientID
    deviceID := deviceID
    serviceName := serviceName
    streamSet := false
    connectedAt := now
    lastNotificationAt := 0
    notificationCount := 0
    isActive := false
    lastHeartbeatAt := 0
    heartbeatFailCount := 0 }

theorem RegisterDevice_eq (cm : ConnectionManager) (c d s : String) (now : Nat) :
    RegisterDevice cm c d s now =
      if c = "" then (.error "client_id is required", cm)
      else if d = "" then (.error "device_id is required", cm)
      else
        match GetConnection cm c d with
        | some existingConn => (.ok existingConn, cm)
        | none => (.ok (freshConn c d s now), AddConnection cm (freshConn c d s now)) := rfl

/-- The state the Connection at (c, d) is driven through before removal by
UnregisterDevice (clear capability and active flag if streaming). -/
def unregClear (cm : ConnectionManager) (c d : String) (conn : Connection) :
    ConnectionManager :=
  if conn.streamSet ∧ conn.isActive then
    updateConn cm c d (fun co => { co with isActive := false, streamSet := false })
  else cm

theorem UnregisterDevice_state (cm : ConnectionManager) (c d : String) :
    (UnregisterDevice cm c d).2 =
      if c = "" ∨ d = "" then cm
      else
        match GetConnection cm c d with
        | none => cm
        | some conn => (RemoveConnection (unregClear cm c d conn) c d).2 := by
  unfold UnregisterDevice unregClear
  by_cases he : (c = "" ∨ d = "")
  · rw [if_pos he, if_pos he]
  · rw [if_neg he, if_neg he]
    cases GetConnection cm c d with
    | none => rfl
    | some conn =>
        simp only
        by_cases hr : (RemoveConnection
            (if conn.streamSet ∧ conn.isActive then
              updateConn cm c d (fun co => { co with isActive := false, streamSet := false })
             else cm) c d).1 = true
        · rw [if_pos hr]
        · rw [if_neg hr]

theorem SendNotificationToClient_state (cm : ConnectionManager) (t : String)
    (ok : String → Bool) (now : Nat) :
    (SendNotificationToClient cm t ok now).2.1 =
      match GetClientGroup cm t with
      | none => cm
      | some cg => (cg.devices.foldl (sendStep t ok now) (cm, 0, 0)).1 := by
  unfold SendNotificationToClient
  cases GetClientGroup cm t with
  | none => rfl
  | some cg =>
      simp only
      by_cases hz : (cg.devices.foldl (sendStep t ok now) (cm, 0, 0)).2.1 = 0
      · rw [if_pos hz]
      · rw [if_neg hz]

/-! ### Claim C5 and C7 backbone: per-operation preservation -/

theorem ActiveIffStream_updateConn {cm : ConnectionManager} {c d : String}
    {f : Connection → Connection}
    (hf : ∀ x : Connection, x.isActive = x.streamSet → (f x).isActive = (f x).streamSet)
    (h : ActiveIffStream cm) : ActiveIffStream (updateConn cm c d f) :=
  DevPred_updateConn hf h

theorem ActiveIffStream_unregClear {cm : ConnectionManager} {c d : String}
    (conn : Connection) (h : ActiveIffStream cm) : ActiveIffStream (unregClear cm c d conn) := by
  unfold unregClear
  by_cases hsa : (conn.streamSet ∧ conn.isActive)
  · rw [if_pos hsa]
    exact ActiveIffStream_updateConn (fun x _ => rfl) h
  · rw [if_neg hsa]
    exact h

theorem ActiveIffStream_Unregister {cm : ConnectionManager} (c d : String)
    (h : ActiveIffStream cm) : ActiveIffStream (UnregisterDevice cm c d).2 := by
  rw [UnregisterDevice_state]
  by_cases he : (c = "" ∨ d = "")
  · rw [if_pos he]; exact h
  · rw [if_neg he]
    cases GetConnection cm c d with
    | none => exact h
    | some conn =>
        exact DevPred_RemoveConnection (ActiveIffStream_unregClear conn h)

theorem ActiveIffStream_applyOp (op : Op) (cm : ConnectionManager)
    (h : ActiveIffStream cm) : ActiveIffStream (applyOp op cm) := by
  cases op with
  | register c d s now =>
      show ActiveIffStream (RegisterDevice cm c d s now).2
      rw [RegisterDevice_eq]
      by_cases hc : c = ""
      · rw [if_pos hc]; exact h
      · rw [if_neg hc]
        by_cases hd : d = ""
        · rw [if_pos hd]; exact h
        · rw [if_neg hd]
          cases GetConnection cm c d with
          | some existingConn => exact h
          | none => exact DevPred_AddConnection rfl h
  | unregister c d => exact ActiveIffStream_Unregister c d h
  | attach c d now =>
      show ActiveIffStream (streamNotificationsAttach cm c d now).2
      unfold streamNotificationsAttach AttachStream
      cases GetConnection cm c d with
      | none => exact h
      | some conn =>
          exact ActiveIffStream_updateConn (fun x hx => hx)
            (ActiveIffStream_updateConn (fun x _ => rfl) h)
  | detach c d =>
      show ActiveIffStream (DetachStream cm c d)
      unfold DetachStream
      cases GetConnection cm c d with
      | none => exact h
      | some conn => exact ActiveIffStream_updateConn (fun x _ => rfl) h
  | send t ok now =>
      show ActiveIffStream (SendNotificationToClient cm t ok now).2.1
      rw [SendNotificationToClient_state]
      cases GetClientGroup cm t with
      | none => exact h
      | some cg =>
          exact foldl_sendStep_pres ActiveIffStream t ok now
            (fun cm0 c0 d0 h0 => ActiveIffStream_updateConn (fun x hx => hx) h0)
            cg.devices (cm, 0, 0) h
  | broadcast ok now =>
      show ActiveIffStream (BroadcastToAll cm ok now).1
      unfold BroadcastToAll
      exact foldl_broadcastClient_pres ActiveIffStream ok now
        (fun cm0 c0 d0 h0 => ActiveIffStream_updateConn (fun x hx => hx) h0)
        (GetAllClientIDs cm) (cm, 0, 0) h
  | hbTick c d ok now =>
      show ActiveIffStream (heartbeatTick cm c d ok now).1
      unfold heartbeatTick
      cases GetConnection cm c d with
      | none => exact h
      | some conn =>
          simp only
          by_cases hact : (¬ conn.isActive ∨ ¬ conn.streamSet)
          · rw [if_pos hact]; exact h
          · rw [if_neg hact]
            by_cases hok : ok = true
            · rw [if_pos hok]
              exact ActiveIffStream_updateConn (fun x hx => hx) h
            · rw [if_neg hok]
              by_cases hth : conn.heartbeatFailCount + 1 ≥ 2
              · rw [if_pos hth]
                exact ActiveIffStream_Unregister c d
                  (ActiveIffStream_updateConn (fun x hx => hx) h)
              · rw [if_neg hth]
                exact ActiveIffStream_updateConn (fun x hx => hx) h

theorem GroupsNonempty_unregClear {cm : ConnectionManager} {c d : String}
    (conn : Connection) (h : GroupsNonempty cm) : GroupsNonempty (unregClear cm c d conn) := by
  unfold unregClear
  by_cases hsa : (conn.streamSet ∧ conn.isActive)
  · rw [if_pos hsa]; exact GN_updateConn h
  · rw [if_neg hsa]; exact h

theorem GroupsNonempty_Unregister {cm : ConnectionManager} (c d : String)
    (h : GroupsNonempty cm) : GroupsNonempty (UnregisterDevice cm c d).2 := by
  rw [UnregisterDevice_state]
  by_cases he : (c = "" ∨ d = "")
  · rw [if_pos he]; exact h
  · rw [if_neg he]
    cases GetConnection cm c d with
    | none => exact h
    | some conn =>
        exact GN_RemoveConnection (GroupsNonempty_unregClear conn h)

theorem GroupsNonempty_applyOp (op : Op) (cm : ConnectionManager)
    (h : GroupsNonempty cm) : GroupsNonempty (applyOp op cm) := by
  cases op with
  | register c d s now =>
      show GroupsNonempty (RegisterDevice cm c d s now).2
      rw [RegisterDevice_eq]
      by_cases hc : c = ""
      · rw [if_pos hc]; exact h
      · rw [if_neg hc]
        by_cases hd : d = ""
        · rw [if_pos hd]; exact h
        · rw [if_neg hd]
          cases GetConnection cm c d with
          | some existingConn => exact h
          | none => exact GN_AddConnection h
  | unregister c d => exact GroupsNonempty_Unregister c d h
  | attach c d now =>
      show GroupsNonempty (streamNotificationsAttach cm c d now).2
      unfold streamNotificationsAttach AttachStream
      cases GetConnection cm c d with
      | none => exact h
      | some conn => exact GN_updateConn (GN_updateConn h)
  | detach c d =>
      show GroupsNonempty (DetachStream cm c d)
      unfold DetachStream
      cases GetConnection cm c d with
      | none => exact h
      | some conn => exact GN_updateConn h
  | send t ok now =>
      show GroupsNonempty (SendNotificationToClient cm t ok now).2.1
      rw [SendNotificationToClient_state]
      cases GetClientGroup cm t with
      | none => exact h
      | some cg =>
          exact foldl_sendStep_pres GroupsNonempty t ok now
            (fun cm0 c0 d0 h0 => GN_updateConn h0) cg.devices (cm, 0, 0) h
  | broadcast ok now =>
      show GroupsNonempty (BroadcastToAll cm ok now).1
      unfold BroadcastToAll
      exact foldl_broadcastClient_pres GroupsNonempty ok now
        (fun cm0 c0 d0 h0 => GN_updateConn h0) (GetAllClientIDs cm) (cm, 0, 0) h
  | hbTick c d ok now =>
      show GroupsNonempty (heartbeatTick cm c d ok now).1
      unfold heartbeatTick
      cases GetConnection cm c d with
      | none => exact h
      | some conn =>
          simp only
          by_cases hact : (¬ conn.isActive ∨ ¬ conn.streamSet)
          · rw [if_pos hact]; exact h
          · rw [if_neg hact]
            by_cases hok : ok = true
            · rw [if_pos hok]; exact GN_updateConn h
            · rw [if_neg hok]
              by_cases hth : conn.heartbeatFailCount + 1 ≥ 2
              · rw [if_pos hth]
                exact GroupsNonempty_Unregister c d (GN_updateConn h)
              · rw [if_neg hth]; exact GN_updateConn h

/-! ### Dispatch counting and error-path lemmas -/

/-- Whether a handler call returned a (non-nil) error. -/
def isErr : Except String β → Bool
  | .error _ => true
  | .ok _ => false

/-- The devices of the target client whose send would succeed: stream
attached, active, and the send outcome positive. -/
def clientSuccessCount (cm : ConnectionManager) (target : String)
    (ok : String → Bool) : Nat :=
  match GetClientGroup cm target with
  | none => 0
  | some cg => cg.devices.countP (fun p => p.2.streamSet && p.2.isActive && ok p.2.uniqueID)

theorem sendStep_active_ok {t : String} {ok : String → Bool} {now : Nat}
    {p : String × Connection} (cm0 : ConnectionManager) (s f : Nat)
    (h1 : p.2.streamSet ∧ p.2.isActive) (h2 : ok p.2.uniqueID = true) :
    sendStep t ok now (cm0, s, f) p = (updateConn cm0 t p.1 (notifUpdate now), s + 1, f) := by
  unfold sendStep
  rw [if_pos h1, if_pos h2]

theorem sendStep_active_fail {t : String} {ok : String → Bool} {now : Nat}
    {p : String × Connection} (cm0 : ConnectionManager) (s f : Nat)
    (h1 : p.2.streamSet ∧ p.2.isActive) (h2 : ¬ ok p.2.uniqueID = true) :
    sendStep t ok now (cm0, s, f) p = (cm0, s, f + 1) := by
  unfold sendStep
  rw [if_pos h1, if_neg h2]

theorem sendStep_inactive {t : String} {ok : String → Bool} {now : Nat}
    {p : String × Connection} (cm0 : ConnectionManager) (s f : Nat)
    (h1 : ¬ (p.2.streamSet ∧ p.2.isActive)) :
    sendStep t ok now (cm0, s, f) p = (cm0, s, f + 1) := by
  unfold sendStep
  rw [if_neg h1]

theorem sendFold_succ (t : String) (ok : String → Bool) (now : Nat) :
    ∀ (ds : List (String × Connection)) (cm0 : ConnectionManager) (s f : Nat),
      (ds.foldl (sendStep t ok now) (cm0, s, f)).2.1 =
        s + ds.countP (fun p => p.2.streamSet && p.2.isActive && ok p.2.uniqueID) := by
  intro ds
  induction ds with
  | nil => intro cm0 s f; simp
  | cons p rest ih =>
      intro cm0 s f
      simp only [List.foldl_cons, List.countP_cons]
      by_cases h1 : (p.2.streamSet ∧ p.2.isActive)
      · by_cases h2 : ok p.2.uniqueID = true
        · rw [sendStep_active_ok cm0 s f h1 h2, ih]
          have hb : (p.2.streamSet && p.2.isActive && ok p.2.uniqueID) = true := by
            simp [h1.1, h1.2, h2]
          rw [hb, if_pos rfl]
          omega
        · rw [sendStep_active_fail cm0 s f h1 h2, ih]
          have hb : (p.2.streamSet && p.2.isActive && ok p.2.uniqueID) = false := by
            simp [h2]
          rw [hb]
          simp
      · rw [sendStep_inactive cm0 s f h1, ih]
        have hb : (p.2.streamSet && p.2.isActive && ok p.2.uniqueID) = false := by
          rcases not_and_or.mp h1 with h | h <;> simp [h]
        rw [hb]
        simp

theorem sendFold_state_of_no_success (t : String) (ok : String → Bool) (now : Nat) :
    ∀ (ds : List (String × Connection)) (cm0 : ConnectionManager) (s f : Nat),
      (ds.foldl (sendStep t ok now) (cm0, s, f)).2.1 = s →
      (ds.foldl (sendStep t ok now) (cm0, s, f)).1 = cm0 := by
  intro ds
  induction ds with
  | nil => intro cm0 s f _; rfl
  | cons p rest ih =>
      intro cm0 s f hs
      simp only [List.foldl_cons] at hs ⊢
      by_cases h1 : (p.2.streamSet ∧ p.2.isActive)
      · by_cases h2 : ok p.2.uniqueID = true
        · rw [sendStep_active_ok cm0 s f h1 h2] at hs
          exfalso
          rw [sendFold_succ] at hs
          omega
        · rw [sendStep_active_fail cm0 s f h1 h2] at hs ⊢
          exact ih cm0 s (f + 1) hs
      · rw [sendStep_inactive cm0 s f h1] at hs ⊢
        exact ih cm0 s (f + 1) hs

theorem RemoveConnection_fst_eq (cm : ConnectionManager) (c d : String) :
    (RemoveConnection cm c d).1 =
      match alookup c cm.clients with
      | none => false
      | some cg => (RemoveDevice cg d).1 := by
  unfold RemoveConnection
  cases alookup c cm.clients with
  | none => rfl
  | some cg =>
      simp only
      by_cases hz : GetDeviceCount (RemoveDevice cg d).2 = 0
      · rw [if_pos hz]
      · rw [if_neg hz]

theorem RemoveConnection_fst {cm : ConnectionManager} {c d : String} {x : Connection}
    (h : GetConnection cm c d = some x) : (RemoveConnection cm c d).1 = true := by
  rw [RemoveConnection_fst_eq]
  cases hg : alookup c cm.clients with
  | none =>
      exfalso
      unfold GetConnection at h
      rw [hg] at h
      exact absurd h (by simp)
  | some cg =>
      have h2 : alookup d cg.devices = some x := by
        unfold GetConnection at h
        rw [hg] at h
        exact h
      show (RemoveDevice cg d).1 = true
      unfold RemoveDevice
      rw [h2]

theorem GetConnection_unregClear {cm : ConnectionManager} {c d : String}
    {conn : Connection} (h : GetConnection cm c d = some conn) :
    GetConnection (unregClear cm c d conn) c d =
      some (if conn.streamSet ∧ conn.isActive then
        { conn with isActive := false, streamSet := false } else conn) := by
  unfold unregClear
  by_cases hsa : (conn.streamSet ∧ conn.isActive)
  · rw [if_pos hsa, if_pos hsa, GetConnection_updateConn_self, h]
    rfl
  · rw [if_neg hsa, if_neg hsa]
    exact h

theorem UnregisterDevice_ok {cm : ConnectionManager} {c d : String} {conn : Connection}
    (hc : c ≠ "") (hd : d ≠ "") (h : GetConnection cm c d = some conn) :
    (UnregisterDevice cm c d).1 = .ok () ∧
      (UnregisterDevice cm c d).2 = (RemoveConnection (unregClear cm c d conn) c d).2 := by
  have hr1 : (RemoveConnection (unregClear cm c d conn) c d).1 = true :=
    RemoveConnection_fst (GetConnection_unregClear h)
  unfold UnregisterDevice
  rw [if_neg (by rw [not_or]; exact ⟨hc, hd⟩), h]
  simp only
  rw [show (if conn.streamSet ∧ conn.isActive then
      updateConn cm c d (fun co => { co with isActive := false, streamSet := false })
      else cm) = unregClear cm c d conn from rfl]
  rw [if_pos hr1]
  exact ⟨rfl, rfl⟩

/-! ### Concrete registry states used by the witnesses -/

/-- A registry with one registered (unattached) device alice/phone. -/
def cmA : ConnectionManager :=
  (RegisterDevice NewConnectionManager "alice" "phone" "svc" 0).2

/-- cmA plus a second device alice/laptop. -/
def cmB : ConnectionManager :=
  (RegisterDevice cmA "alice" "laptop" "svc" 1).2

/-- cmB with a stream attached to alice/phone. -/
def cmC : ConnectionManager :=
  (streamNotificationsAttach cmB "alice" "phone" 5).2

/-! ### Claims -/

/-- C9: register(clientID, deviceID, serviceName) fails with a
ValidationError if and only if clientID is empty or deviceID is empty; the
only errors RegisterDevice can return are the two validation messages, so
for all non-empty ids it returns no ValidationError. -/
theorem claim_C9_register_validation_iff (cm : ConnectionManager)
    (c d s : String) (now : Nat) :
    (isErr (RegisterDevice cm c d s now).1 = true ↔ (c = "" ∨ d = "")) ∧
    (∀ e, (RegisterDevice cm c d s now).1 = .error e →
      e = "client_id is required" ∨ e = "device_id is required") := by
  rw [RegisterDevice_eq]
  by_cases hc : c = ""
  · rw [if_pos hc]
    constructor
    · simp [isErr, hc]
    · intro e he
      left
      have h3 : Except.error (ε := String) (α := Connection) "client_id is required" = .error e := he
      injection h3 with h2
      exact h2.symm
  · rw [if_neg hc]
    by_cases hd : d = ""
    · rw [if_pos hd]
      constructor
      · simp [isErr, hd]
      · intro e he
        right
        have h3 : Except.error (ε := String) (α := Connection) "device_id is required" = .error e := he
        injection h3 with h2
        exact h2.symm
    · rw [if_neg hd]
      cases GetConnection cm c d with
      | some existingConn =>
          constructor
          · simp [isErr, hc, hd]
          · intro e he
            exact absurd he (by simp)
      | none =>
          constructor
          · simp [isErr, hc, hd]
          · intro e he
            exact absurd he (by simp)

/-- C6: for non-empty ids with an existing Connection, RegisterDevice
returns the existing Connection object and leaves the registry state (hence
the stored serviceName and the client group's device count) unchanged. -/
theorem claim_C6_register_idempotent (cm : ConnectionManager) (c d s : String)
    (now : Nat) (conn : Connection) (hc : c ≠ "") (hd : d ≠ "")
    (h : GetConnection cm c d = some conn) :
    (RegisterDevice cm c d s now).1 = .ok conn ∧
    (RegisterDevice cm c d s now).2 = cm ∧
    (GetClientGroup (RegisterDevice cm c d s now).2 c).map GetDeviceCount =
      (GetClientGroup cm c).map GetDeviceCount := by
  rw [RegisterDevice_eq, if_neg hc, if_neg hd]
  simp [h]

/-- Witness for C6: re-registering alice/phone with a different service
name returns the original Connection (serviceName "svc") and keeps cmA. -/
theorem claim_C6_witness :
    (RegisterDevice cmA "alice" "phone" "other" 9).1 = .ok (freshConn "alice" "phone" "svc" 0) ∧
    (RegisterDevice cmA "alice" "phone" "other" 9).2 = cmA ∧
    (GetClientGroup (RegisterDevice cmA "alice" "phone" "other" 9).2 "alice").map GetDeviceCount =
      (GetClientGroup cmA "alice").map GetDeviceCount :=
  claim_C6_register_idempotent cmA "alice" "phone" "other" 9
    (freshConn "alice" "phone" "svc" 0) (by decide) (by decide) (by decide)

/-- C3: SendNotificationToClient reports an error (DeliveryError) if and
only if zero devices of the target client succeed — including when the
client has no devices at all (no group) or no active devices — and reports
success whenever at least one device's send succeeds; the returned success
count equals the number of succeeding devices. -/
theorem claim_C3_delivery_error_iff (cm : ConnectionManager) (t : String)
    (ok : String → Bool) (now : Nat) :
    (isErr (SendNotificationToClient cm t ok now).1 = true ↔
      clientSuccessCount cm t ok = 0) ∧
    (SendNotificationToClient cm t ok now).2.2.1 = clientSuccessCount cm t ok := by
  unfold SendNotificationToClient clientSuccessCount
  cases GetClientGroup cm t with
  | none => exact ⟨by simp [isErr], rfl⟩
  | some cg =>
      simp only
      have hsucc := sendFold_succ t ok now cg.devices cm 0 0
      rw [Nat.zero_add] at hsucc
      by_cases hz : (cg.devices.foldl (sendStep t ok now) (cm, 0, 0)).2.1 = 0
      · rw [if_pos hz]
        refine ⟨?_, ?_⟩
        · constructor
          · intro _
            rw [← hsucc]
            exact hz
          · intro _
            simp [isErr]
        · exact hsucc
      · rw [if_neg hz]
        refine ⟨?_, ?_⟩
        · constructor
          · intro habs
            exact absurd habs (by simp [isErr])
          · intro h0
            exact absurd (hsucc.trans h0) hz
        · exact hsucc

/-- C10: whenever register returns a ValidationError, unregister or
attachStream returns a NotFoundError, or sendToClient returns a
DeliveryError, the registry state after the call equals the state before
it. -/
theorem claim_C10_error_atomicity :
    (∀ (cm : ConnectionManager) (c d s : String) (now : Nat),
      isErr (RegisterDevice cm c d s now).1 = true → (RegisterDevice cm c d s now).2 = cm) ∧
    (∀ (cm : ConnectionManager) (c d : String),
      isErr (UnregisterDevice cm c d).1 = true → (UnregisterDevice cm c d).2 = cm) ∧
    (∀ (cm : ConnectionManager) (c d : String) (now : Nat),
      isErr (streamNotificationsAttach cm c d now).1 = true →
        (streamNotificationsAttach cm c d now).2 = cm) ∧
    (∀ (cm : ConnectionManager) (t : String) (ok : String → Bool) (now : Nat),
      isErr (SendNotificationToClient cm t ok now).1 = true →
        (SendNotificationToClient cm t ok now).2.1 = cm) := by
  refine ⟨?_, ?_, ?_, ?_⟩
  · intro cm c d s now herr
    rw [RegisterDevice_eq] at herr ⊢
    by_cases hc : c = ""
    · rw [if_pos hc]
    · rw [if_neg hc] at herr ⊢
      by_cases hd : d = ""
      · rw [if_pos hd]
      · rw [if_neg hd] at herr ⊢
        cases hgc : GetConnection cm c d with
        | some existingConn => rw [hgc] at herr
        | none =>
            rw [hgc] at herr
            simp [isErr] at herr
  · intro cm c d herr
    by_cases he : (c = "" ∨ d = "")
    · unfold UnregisterDevice
      rw [if_pos he]
    · cases hgc : GetConnection cm c d with
      | none =>
          unfold UnregisterDevice
          rw [if_neg he]
          simp only [hgc]
      | some conn =>
          exfalso
          rw [not_or] at he
          rw [(UnregisterDevice_ok he.1 he.2 hgc).1] at herr
          exact absurd herr (by simp [isErr])
  · intro cm c d now herr
    unfold streamNotificationsAttach AttachStream at herr ⊢
    cases hgc : GetConnection cm c d with
    | none => simp only [hgc]
    | some conn =>
        simp only [hgc] at herr
        exact absurd herr (by simp [isErr])
  · intro cm t ok now herr
    rw [SendNotificationToClient_state]
    cases hgr : GetClientGroup cm t with
    | none => rfl
    | some cg =>
        simp only
        unfold SendNotificationToClient at herr
        rw [hgr] at herr
        simp only at herr
        by_cases hz : (cg.devices.foldl (sendStep t ok now) (cm, 0, 0)).2.1 = 0
        · exact sendFold_state_of_no_success t ok now cg.devices cm 0 0 hz
        · rw [if_neg hz] at herr
          exact absurd herr (by simp [isErr])

/-- Witness for C10: an empty-id registration, an unknown-device
unregistration and attach, and a zero-success dispatch all leave cmA
unchanged. -/
theorem claim_C10_witness :
    (RegisterDevice cmA "" "x" "s" 0).2 = cmA ∧
    (UnregisterDevice cmA "bob" "x").2 = cmA ∧
    (streamNotificationsAttach cmA "bob" "x" 1).2 = cmA ∧
    (SendNotificationToClient cmA "alice" (fun _ => true) 2).2.1 = cmA :=
  ⟨claim_C10_error_atomicity.1 cmA "" "x" "s" 0 (by rfl),
   claim_C10_error_atomicity.2.1 cmA "bob" "x" (by rfl),
   claim_C10_error_atomicity.2.2.1 cmA "bob" "x" 1 (by rfl),
   claim_C10_error_atomicity.2.2.2 cmA "alice" (fun _ => true) 2 (by rfl)⟩

theorem not_mem_keys_assocDel (l : List (String × α)) (k : String) :
    k ∉ (assocDel l k).map Prod.fst := by
  intro h
  obtain ⟨p, hp, he⟩ := List.mem_map.mp h
  have hf := (List.mem_filter.mp hp).2
  rw [he] at hf
  simp at hf

/-- C5: isActive is true iff the outbound send capability is set, in the
empty registry and after every operation (register, unregister, attach,
detach, targeted dispatch, broadcast, heartbeat tick): no operation updates
one of the two fields without the other. -/
theorem claim_C5_active_iff_stream :
    ActiveIffStream NewConnectionManager ∧
    ∀ (op : Op) (cm : ConnectionManager),
      ActiveIffStream cm → ActiveIffStream (applyOp op cm) := by
  constructor
  · intro p hp
    simp [NewConnectionManager] at hp
  · exact ActiveIffStream_applyOp

/-- Witness for C5: the invariant holds of cmB and survives attaching a
stream to alice/phone. -/
theorem claim_C5_witness : ActiveIffStream (applyOp (Op.attach "alice" "phone" 5) cmB) := by
  apply claim_C5_active_iff_stream.2
  show DevPred (fun conn => conn.isActive = conn.streamSet) cmB
  unfold DevPred
  decide

/-- C7: every client group in the registry holds at least one Connection
(true of the empty registry and preserved by every operation), and
unregistering a client's last device removes that client from
allClientIDs(). -/
theorem claim_C7_groups_nonempty :
    GroupsNonempty NewConnectionManager ∧
    (∀ (op : Op) (cm : ConnectionManager),
      GroupsNonempty cm → GroupsNonempty (applyOp op cm)) ∧
    (∀ (cm : ConnectionManager) (c d : String) (cg : ClientGroup) (conn : Connection),
      c ≠ "" → d ≠ "" → GetClientGroup cm c = some cg → cg.devices = [(d, conn)] →
      c ∉ GetAllClientIDs (UnregisterDevice cm c d).2) := by
  refine ⟨?_, GroupsNonempty_applyOp, ?_⟩
  · intro p hp
    simp [NewConnectionManager] at hp
  · intro cm c d cg conn hc hd hg hdev
    have hlk : GetConnection cm c d = some conn := by
      rw [GetConnection_eq_bind, hg]
      show GetDevice cg d = some conn
      unfold GetDevice
      rw [hdev]
      simp [alookup]
    rw [(UnregisterDevice_ok hc hd hlk).2]
    have hg2 : ∃ conn2, GetClientGroup (unregClear cm c d conn) c =
        some { cg with devices := [(d, conn2)] } := by
      unfold unregClear
      by_cases hsa : (conn.streamSet ∧ conn.isActive)
      · rw [if_pos hsa, GetClientGroup_updateConn_self, hg]
        refine ⟨{ conn with isActive := false, streamSet := false }, ?_⟩
        simp [hdev]
      · rw [if_neg hsa]
        refine ⟨conn, ?_⟩
        rw [hg, ← hdev]
    obtain ⟨conn2, hg2⟩ := hg2
    have hg3 : alookup c (unregClear cm c d conn).clients =
        some { cg with devices := [(d, conn2)] } := hg2
    have hrd : RemoveDevice { cg with devices := [(d, conn2)] } d =
        (true, { cg with devices := [] }) := by
      unfold RemoveDevice
      rw [show alookup d [(d, conn2)] = some conn2 from by simp [alookup]]
      simp [assocDel]
    have hrc : (RemoveConnection (unregClear cm c d conn) c d).2 =
        { clients := assocDel (unregClear cm c d conn).clients c } := by
      unfold RemoveConnection
      simp only [hg3, hrd]
      simp [GetDeviceCount]
    rw [hrc]
    show c ∉ (assocDel (unregClear cm c d conn).clients c).map Prod.fst
    exact not_mem_keys_assocDel _ c

/-- Witness for C7: registering a new client preserves group nonemptiness
of cmA, and unregistering alice's only device removes alice from the
client id list. -/
theorem claim_C7_witness :
    GroupsNonempty (applyOp (Op.register "carl" "tab" "s" 2) cmA) ∧
    "alice" ∉ GetAllClientIDs (UnregisterDevice cmA "alice" "phone").2 := by
  constructor
  · apply claim_C7_groups_nonempty.2.1
    show GroupsNonempty cmA
    unfold GroupsNonempty
    decide
  · exact claim_C7_groups_nonempty.2.2 cmA "alice" "phone"
      ⟨"alice", [("phone", freshConn "alice" "phone" "svc" 0)]⟩
      (freshConn "alice" "phone" "svc" 0)
      (by decide) (by decide) (by decide) (by decide)

/-- C4: the attach transition of StreamNotifications fails with a
NotFoundError and changes nothing when the Connection is absent, and
otherwise sets the capability, isActive, lastHeartbeatAt = now and
failures = 0; DetachStream clears the capability and isActive and is an
idempotent no-op when the Connection is absent. -/
theorem claim_C4_attach_detach (cm : ConnectionManager) (c d : String) (now : Nat) :
    (GetConnection cm c d = none →
      streamNotificationsAttach cm c d now =
        (.error ("connection not found for client: " ++ c ++ ", device: " ++ d), cm) ∧
      DetachStream cm c d = cm) ∧
    (∀ conn, GetConnection cm c d = some conn →
      (streamNotificationsAttach cm c d now).1 = .ok () ∧
      GetConnection (streamNotificationsAttach cm c d now).2 c d =
        some { conn with streamSet := true, isActive := true,
                         lastHeartbeatAt := now, heartbeatFailCount := 0 } ∧
      GetConnection (DetachStream cm c d) c d =
        some { conn with streamSet := false, isActive := false }) := by
  constructor
  · intro h
    constructor
    · unfold streamNotificationsAttach AttachStream
      rw [h]
    · unfold DetachStream
      rw [h]
  · intro conn h
    have hatt : streamNotificationsAttach cm c d now =
        (.ok (), updateConn
          (updateConn cm c d (fun co => { co with streamSet := true, isActive := true }))
          c d (fun co => { co with lastHeartbeatAt := now, heartbeatFailCount := 0 })) := by
      unfold streamNotificationsAttach AttachStream
      rw [h]
    refine ⟨by rw [hatt], ?_, ?_⟩
    · rw [hatt]
      show GetConnection (updateConn
          (updateConn cm c d (fun co => { co with streamSet := true, isActive := true }))
          c d (fun co => { co with lastHeartbeatAt := now, heartbeatFailCount := 0 })) c d =
        some { conn with streamSet := true, isActive := true,
                         lastHeartbeatAt := now, heartbeatFailCount := 0 }
      rw [GetConnection_updateConn_self, GetConnection_updateConn_self, h]
      rfl
    · unfold DetachStream
      rw [h, GetConnection_updateConn_self, h]
      rfl

/-- Witness for C4: attaching to the absent bob/x leaves cmB unchanged with
a NotFoundError, and attach/detach on the present alice/phone set and clear
the capability, activity flag and heartbeat bookkeeping. -/
theorem claim_C4_witness :
    (streamNotificationsAttach cmB "bob" "x" 7 =
      (.error ("connection not found for client: " ++ "bob" ++ ", device: " ++ "x"), cmB) ∧
     DetachStream cmB "bob" "x" = cmB) ∧
    ((streamNotificationsAttach cmB "alice" "phone" 7).1 = .ok () ∧
     GetConnection (streamNotificationsAttach cmB "alice" "phone" 7).2 "alice" "phone" =
       some { freshConn "alice" "phone" "svc" 0 with
                streamSet := true, isActive := true,
                lastHeartbeatAt := 7, heartbeatFailCount := 0 } ∧
     GetConnection (DetachStream cmB "alice" "phone") "alice" "phone" =
       some { freshConn "alice" "phone" "svc" 0 with
                streamSet := false, isActive := false }) :=
  ⟨(claim_C4_attach_detach cmB "bob" "x" 7).1 (by decide),
   (claim_C4_attach_detach cmB "alice" "phone" 7).2
     (freshConn "alice" "phone" "svc" 0) (by decide)⟩

/-! ### Per-device effect of the dispatch loops (claim C8) -/

theorem deliverUpdate_active_ok {ok : String → Bool} {now : Nat} {conn : Connection}
    (h1 : conn.streamSet ∧ conn.isActive) (h2 : ok conn.uniqueID = true) :
    deliverUpdate ok now conn = notifUpdate now conn := by
  unfold deliverUpdate
  rw [if_pos ⟨h1.1, h1.2, h2⟩]

theorem deliverUpdate_active_fail {ok : String → Bool} {now : Nat} {conn : Connection}
    (h2 : ¬ ok conn.uniqueID = true) : deliverUpdate ok now conn = conn := by
  unfold deliverUpdate
  rw [if_neg (fun hc => h2 hc.2.2)]

theorem deliverUpdate_inactive {ok : String → Bool} {now : Nat} {conn : Connection}
    (h1 : ¬ (conn.streamSet ∧ conn.isActive)) : deliverUpdate ok now conn = conn := by
  unfold deliverUpdate
  rw [if_neg (fun hc => h1 ⟨hc.1, hc.2.1⟩)]

theorem not_key_of_not_mem {rest : List (String × Connection)} {d : String}
    (hk : d ∉ rest.map Prod.fst) : ∀ x : Connection, (d, x) ∉ rest := by
  intro x hx
  exact hk (List.mem_map.mpr ⟨(d, x), hx, rfl⟩)

theorem sendFold_lookup (t : String) (ok : String → Bool) (now : Nat) :
    ∀ (ds : List (String × Connection)) (cm0 : ConnectionManager) (s f : Nat)
      (d : String) (conn : Connection),
      (ds.map Prod.fst).Nodup →
      GetConnection cm0 t d = some conn →
      (((d, conn) ∈ ds →
        GetConnection ((ds.foldl (sendStep t ok now) (cm0, s, f))).1 t d =
          some (deliverUpdate ok now conn)) ∧
       ((∀ x : Connection, (d, x) ∉ ds) →
        GetConnection ((ds.foldl (sendStep t ok now) (cm0, s, f))).1 t d = some conn)) := by
  intro ds
  induction ds with
  | nil =>
      intro cm0 s f d conn _ h0
      exact ⟨fun hmem => absurd hmem (by simp), fun _ => h0⟩
  | cons p rest ih =>
      intro cm0 s f d conn hnd h0
      simp only [List.map_cons, List.nodup_cons] at hnd
      simp only [List.foldl_cons]
      constructor
      · intro hmem
        rcases List.mem_cons.mp hmem with heq | hmem2
        · -- the head entry is this device
          have hp1 : p.1 = d := by rw [← heq]
          have hp2 : p.2 = conn := by rw [← heq]
          by_cases h1 : (p.2.streamSet ∧ p.2.isActive)
          · by_cases h2 : ok p.2.uniqueID = true
            · rw [sendStep_active_ok cm0 s f h1 h2]
              have hlk2 : GetConnection (updateConn cm0 t p.1 (notifUpdate now)) t d =
                  some (notifUpdate now conn) := by
                rw [hp1, GetConnection_updateConn_self, h0]
                rfl
              have := (ih (updateConn cm0 t p.1 (notifUpdate now)) (s + 1) f d
                (notifUpdate now conn) hnd.2 hlk2).2
                (not_key_of_not_mem (by rw [← hp1]; exact hnd.1))
              rw [this]
              rw [deliverUpdate_active_ok (hp2 ▸ h1) (hp2 ▸ h2)]
            · rw [sendStep_active_fail cm0 s f h1 h2]
              have := (ih cm0 s (f + 1) d conn hnd.2 h0).2
                (not_key_of_not_mem (by rw [← hp1]; exact hnd.1))
              rw [this]
              rw [deliverUpdate_active_fail (hp2 ▸ h2)]
          · rw [sendStep_inactive cm0 s f h1]
            have := (ih cm0 s (f + 1) d conn hnd.2 h0).2
              (not_key_of_not_mem (by rw [← hp1]; exact hnd.1))
            rw [this]
            rw [deliverUpdate_inactive (hp2 ▸ h1)]
        · -- this device sits deeper in the list; head has another key
          have hkne : p.1 ≠ d := by
            intro hpd
            have hdm : d ∈ rest.map Prod.fst := List.mem_map.mpr ⟨(d, conn), hmem2, rfl⟩
            exact hnd.1 (by rw [hpd]; exact hdm)
          by_cases h1 : (p.2.streamSet ∧ p.2.isActive)
          · by_cases h2 : ok p.2.uniqueID = true
            · rw [sendStep_active_ok cm0 s f h1 h2]
              have hlk2 : GetConnection (updateConn cm0 t p.1 (notifUpdate now)) t d =
                  some conn := by
                rw [GetConnection_updateConn_other _ _ (fun hc => hkne hc.2.symm)]
                exact h0
              exact (ih _ (s + 1) f d conn hnd.2 hlk2).1 hmem2
            · rw [sendStep_active_fail cm0 s f h1 h2]
              exact (ih cm0 s (f + 1) d conn hnd.2 h0).1 hmem2
          · rw [sendStep_inactive cm0 s f h1]
            exact (ih cm0 s (f + 1) d conn hnd.2 h0).1 hmem2
      · intro hnone
        have hkne : p.1 ≠ d := by
          intro hpd
          exact hnone p.2 (by
            have : p = (d, p.2) := by
              rw [← hpd]
            rw [← this]
            exact List.mem_cons_self p rest)
        have hrest : ∀ x : Connection, (d, x) ∉ rest := fun x hx =>
          hnone x (List.mem_cons_of_mem p hx)
        by_cases h1 : (p.2.streamSet ∧ p.2.isActive)
        · by_cases h2 : ok p.2.uniqueID = true
          · rw [sendStep_active_ok cm0 s f h1 h2]
            have hlk2 : GetConnection (updateConn cm0 t p.1 (notifUpdate now)) t d =
                some conn := by
              rw [GetConnection_updateConn_other _ _ (fun hc => hkne hc.2.symm)]
              exact h0
            exact (ih _ (s + 1) f d conn hnd.2 hlk2).2 hrest
          · rw [sendStep_active_fail cm0 s f h1 h2]
            exact (ih cm0 s (f + 1) d conn hnd.2 h0).2 hrest
        · rw [sendStep_inactive cm0 s f h1]
          exact (ih cm0 s (f + 1) d conn hnd.2 h0).2 hrest

theorem bstep_active_ok {cid : String} {ok : String → Bool} {now : Nat}
    {p : String × Connection} (cm0 : ConnectionManager) (s : Nat)
    (h1 : p.2.streamSet ∧ p.2.isActive) (h2 : ok p.2.uniqueID = true) :
    broadcastStep cid ok now (cm0, s) p = (updateConn cm0 cid p.1 (notifUpdate now), s + 1) := by
  unfold broadcastStep
  rw [if_pos h1, if_pos h2]

theorem bstep_active_fail {cid : String} {ok : String → Bool} {now : Nat}
    {p : String × Connection} (cm0 : ConnectionManager) (s : Nat)
    (h1 : p.2.streamSet ∧ p.2.isActive) (h2 : ¬ ok p.2.uniqueID = true) :
    broadcastStep cid ok now (cm0, s) p = (cm0, s) := by
  unfold broadcastStep
  rw [if_pos h1, if_neg h2]

theorem bstep_inactive {cid : String} {ok : String → Bool} {now : Nat}
    {p : String × Connection} (cm0 : ConnectionManager) (s : Nat)
    (h1 : ¬ (p.2.streamSet ∧ p.2.isActive)) :
    broadcastStep cid ok now (cm0, s) p = (cm0, s) := by
  unfold broadcastStep
  rw [if_neg h1]

theorem bFold_lookup (cid : String) (ok : String → Bool) (now : Nat) :
    ∀ (ds : List (String × Connection)) (cm0 : ConnectionManager) (s : Nat)
      (d : String) (conn : Connection),
      (ds.map Prod.fst).Nodup →
      GetConnection cm0 cid d = some conn →
      (((d, conn) ∈ ds →
        GetConnection ((ds.foldl (broadcastStep cid ok now) (cm0, s))).1 cid d =
          some (deliverUpdate ok now conn)) ∧
       ((∀ x : Connection, (d, x) ∉ ds) →
        GetConnection ((ds.foldl (broadcastStep cid ok now) (cm0, s))).1 cid d = some conn)) := by
  intro ds
  induction ds with
  | nil =>
      intro cm0 s d conn _ h0
      exact ⟨fun hmem => absurd hmem (by simp), fun _ => h0⟩
  | cons p rest ih =>
      intro cm0 s d conn hnd h0
      simp only [List.map_cons, List.nodup_cons] at hnd
      simp only [List.foldl_cons]
      constructor
      · intro hmem
        rcases List.mem_cons.mp hmem with heq | hmem2
        · have hp1 : p.1 = d := by rw [← heq]
          have hp2 : p.2 = conn := by rw [← heq]
          by_cases h1 : (p.2.streamSet ∧ p.2.isActive)
          · by_cases h2 : ok p.2.uniqueID = true
            · rw [bstep_active_ok cm0 s h1 h2]
              have hlk2 : GetConnection (updateConn cm0 cid p.1 (notifUpdate now)) cid d =
                  some (notifUpdate now conn) := by
                rw [hp1, GetConnection_updateConn_self, h0]
                rfl
              have := (ih (updateConn cm0 cid p.1 (notifUpdate now)) (s + 1) d
                (notifUpdate now conn) hnd.2 hlk2).2
                (not_key_of_not_mem (by rw [← hp1]; exact hnd.1))
              rw [this]
              rw [deliverUpdate_active_ok (hp2 ▸ h1) (hp2 ▸ h2)]
            · rw [bstep_active_fail cm0 s h1 h2]
              have := (ih cm0 s d conn hnd.2 h0).2
                (not_key_of_not_mem (by rw [← hp1]; exact hnd.1))
              rw [this]
              rw [deliverUpdate_active_fail (hp2 ▸ h2)]
          · rw [bstep_inactive cm0 s h1]
            have := (ih cm0 s d conn hnd.2 h0).2
              (not_key_of_not_mem (by rw [← hp1]; exact hnd.1))
            rw [this]
            rw [deliverUpdate_inactive (hp2 ▸ h1)]
        · have hkne : p.1 ≠ d := by
            intro hpd
            have hdm : d ∈ rest.map Prod.fst := List.mem_map.mpr ⟨(d, conn), hmem2, rfl⟩
            exact hnd.1 (by rw [hpd]; exact hdm)
          by_cases h1 : (p.2.streamSet ∧ p.2.isActive)
          · by_cases h2 : ok p.2.uniqueID = true
            · rw [bstep_active_ok cm0 s h1 h2]
              have hlk2 : GetConnection (updateConn cm0 cid p.1 (notifUpdate now)) cid d =
                  some conn := by
                rw [GetConnection_updateConn_other _ _ (fun hc => hkne hc.2.symm)]
                exact h0
              exact (ih _ (s + 1) d conn hnd.2 hlk2).1 hmem2
            · rw [bstep_active_fail cm0 s h1 h2]
              exact (ih cm0 s d conn hnd.2 h0).1 hmem2
          · rw [bstep_inactive cm0 s h1]
            exact (ih cm0 s d conn hnd.2 h0).1 hmem2
      · intro hnone
        have hkne : p.1 ≠ d := by
          intro hpd
          exact hnone p.2 (by
            have hpe : p = (d, p.2) := by rw [← hpd]
            rw [← hpe]
            exact List.mem_cons_self p rest)
        have hrest : ∀ x : Connection, (d, x) ∉ rest := fun x hx =>
          hnone x (List.mem_cons_of_mem p hx)
        by_cases h1 : (p.2.streamSet ∧ p.2.isActive)
        · by_cases h2 : ok p.2.uniqueID = true
          · rw [bstep_active_ok cm0 s h1 h2]
            have hlk2 : GetConnection (updateConn cm0 cid p.1 (notifUpdate now)) cid d =
                some conn := by
              rw [GetConnection_updateConn_other _ _ (fun hc => hkne hc.2.symm)]
              exact h0
            exact (ih _ (s + 1) d conn hnd.2 hlk2).2 hrest
          · rw [bstep_active_fail cm0 s h1 h2]
            exact (ih cm0 s d conn hnd.2 h0).2 hrest
        · rw [bstep_inactive cm0 s h1]
          exact (ih cm0 s d conn hnd.2 h0).2 hrest

theorem bFold_lookup_other (cid : String) (ok : String → Bool) (now : Nat)
    {c d : String} (hne : c ≠ cid) :
    ∀ (ds : List (String × Connection)) (cm0 : ConnectionManager) (s : Nat),
      GetConnection ((ds.foldl (broadcastStep cid ok now) (cm0, s))).1 c d =
        GetConnection cm0 c d := by
  intro ds
  induction ds with
  | nil => intro cm0 s; rfl
  | cons p rest ih =>
      intro cm0 s
      simp only [List.foldl_cons]
      by_cases h1 : (p.2.streamSet ∧ p.2.isActive)
      · by_cases h2 : ok p.2.uniqueID = true
        · rw [bstep_active_ok cm0 s h1 h2, ih]
          exact GetConnection_updateConn_other _ _ (fun hc => hne hc.1)
        · rw [bstep_active_fail cm0 s h1 h2, ih]
      · rw [bstep_inactive cm0 s h1, ih]

theorem broadcastClient_none {ok : String → Bool} {now : Nat}
    {cm0 : ConnectionManager} {s t : Nat} {cid : String}
    (hg : GetClientGroup cm0 cid = none) :
    broadcastClient ok now (cm0, s, t) cid = (cm0, s, t) := by
  simp only [broadcastClient]
  rw [hg]

theorem broadcastClient_some {ok : String → Bool} {now : Nat}
    {cm0 : ConnectionManager} {s t : Nat} {cid : String} {cg : ClientGroup}
    (hg : GetClientGroup cm0 cid = some cg) :
    broadcastClient ok now (cm0, s, t) cid =
      ((cg.devices.foldl (broadcastStep cid ok now) (cm0, s)).1,
       (cg.devices.foldl (broadcastStep cid ok now) (cm0, s)).2,
       t + cg.devices.length) := by
  simp only [broadcastClient]
  rw [hg]

theorem WF_bFold (cid : String) (ok : String → Bool) (now : Nat)
    (ds : List (String × Connection)) (cm0 : ConnectionManager) (s : Nat)
    (hWF : WF cm0) : WF ((ds.foldl (broadcastStep cid ok now) (cm0, s))).1 :=
  foldl_broadcastStep_pres WF cid ok now
    (fun _ _ _ h => WF_updateConn (fun _ => ⟨rfl, rfl, rfl⟩) h) ds (cm0, s) hWF

theorem broadcastFold_lookup (ok : String → Bool) (now : Nat) :
    ∀ (ids : List String) (cm0 : ConnectionManager) (s t : Nat)
      (c d : String) (conn : Connection),
      ids.Nodup → WF cm0 → GetConnection cm0 c d = some conn →
      ((c ∈ ids →
        GetConnection ((ids.foldl (broadcastClient ok now) (cm0, s, t))).1 c d =
          some (deliverUpdate ok now conn)) ∧
       (c ∉ ids →
        GetConnection ((ids.foldl (broadcastClient ok now) (cm0, s, t))).1 c d = some conn)) := by
  intro ids
  induction ids with
  | nil =>
      intro cm0 s t c d conn _ _ h0
      exact ⟨fun hmem => absurd hmem (by simp), fun _ => h0⟩
  | cons cid rest ih =>
      intro cm0 s t c d conn hnd hWF h0
      simp only [List.nodup_cons] at hnd
      simp only [List.foldl_cons]
      cases hg : GetClientGroup cm0 cid with
      | none =>
          rw [broadcastClient_none hg]
          constructor
          · intro hmem
            rcases List.mem_cons.mp hmem with heq | hmem2
            · exfalso
              rw [GetConnection_eq_bind] at h0
              rw [← heq] at hg
              rw [hg] at h0
              exact absurd h0 (by simp)
            · exact (ih cm0 s t c d conn hnd.2 hWF h0).1 hmem2
          · intro hnm
            exact (ih cm0 s t c d conn hnd.2 hWF h0).2
              (fun hm => hnm (List.mem_cons_of_mem cid hm))
      | some cg =>
          rw [broadcastClient_some hg]
          have hWF2 : WF ((cg.devices.foldl (broadcastStep cid ok now) (cm0, s))).1 :=
            WF_bFold cid ok now cg.devices cm0 s hWF
          by_cases hceq : c = cid
          · subst hceq
            have hdev : GetDevice cg d = some conn := by
              rw [GetConnection_eq_bind, hg] at h0
              exact h0
            have hmemd : (d, conn) ∈ cg.devices := alookup_mem hdev
            have hndk : (cg.devices.map Prod.fst).Nodup :=
              (hWF.2 (c, cg) (alookup_mem hg)).2.1
            have hinner :
                GetConnection ((cg.devices.foldl (broadcastStep c ok now) (cm0, s))).1 c d =
                  some (deliverUpdate ok now conn) :=
              (bFold_lookup c ok now cg.devices cm0 s d conn hndk h0).1 hmemd
            constructor
            · intro _
              exact (ih _ _ _ c d (deliverUpdate ok now conn) hnd.2 hWF2 hinner).2 hnd.1
            · intro hnm
              exact absurd (List.mem_cons_self c rest) hnm
          · have hpres :
                GetConnection ((cg.devices.foldl (broadcastStep cid ok now) (cm0, s))).1 c d =
                  some conn := by
              rw [bFold_lookup_other cid ok now hceq]
              exact h0
            constructor
            · intro hmem
              rcases List.mem_cons.mp hmem with heq | hmem2
              · exact absurd heq hceq
              · exact (ih _ _ _ c d conn hnd.2 hWF2 hpres).1 hmem2
            · intro hnm
              exact (ih _ _ _ c d conn hnd.2 hWF2 hpres).2
                (fun hm => hnm (List.mem_cons_of_mem cid hm))

/-- C8: broadcast applies the same per-device semantics as targeted
dispatch: for every stored Connection, after BroadcastToAll (respectively
SendNotificationToClient to its client) the stored Connection equals
deliverUpdate of the old one — notificationCount incremented and
lastNotificationAt set if the device has an active attached stream and its
send succeeds, unchanged otherwise.  BroadcastToAll returns only counts,
never a failure. -/
theorem claim_C8_broadcast_per_device (cm : ConnectionManager)
    (ok : String → Bool) (now : Nat) (hWF : WF cm) :
    ∀ (c d : String) (conn : Connection), GetConnection cm c d = some conn →
      GetConnection (BroadcastToAll cm ok now).1 c d = some (deliverUpdate ok now conn) ∧
      GetConnection (SendNotificationToClient cm c ok now).2.1 c d =
        some (deliverUpdate ok now conn) := by
  intro c d conn h
  constructor
  · unfold BroadcastToAll
    have hidn : (GetAllClientIDs cm).Nodup := hWF.1
    have hmemid : c ∈ GetAllClientIDs cm := by
      rw [GetConnection_eq_bind] at h
      cases hg : GetClientGroup cm c with
      | none => rw [hg] at h; exact absurd h (by simp)
      | some cg => exact List.mem_map.mpr ⟨(c, cg), alookup_mem hg, rfl⟩
    exact (broadcastFold_lookup ok now (GetAllClientIDs cm) cm 0 0 c d conn
      hidn hWF h).1 hmemid
  · rw [SendNotificationToClient_state]
    cases hg : GetClientGroup cm c with
    | none =>
        rw [GetConnection_eq_bind, hg] at h
        exact absurd h (by simp)
    | some cg =>
        have hdev : GetDevice cg d = some conn := by
          rw [GetConnection_eq_bind, hg] at h
          exact h
        have hmem : (d, conn) ∈ cg.devices := alookup_mem hdev
        have hndk : (cg.devices.map Prod.fst).Nodup :=
          (hWF.2 (c, cg) (alookup_mem hg)).2.1
        exact (sendFold_lookup c ok now cg.devices cm 0 0 d conn hndk h).1 hmem

/-- Witness for C8: broadcasting over cmC updates the attached alice/phone
by exactly the per-device rule, and targeted dispatch to alice does the
same. -/
theorem claim_C8_witness :
    GetConnection (BroadcastToAll cmC (fun _ => true) 9).1 "alice" "phone" =
      some (deliverUpdate (fun _ => true) 9
        { freshConn "alice" "phone" "svc" 0 with
            streamSet := true, isActive := true,
            lastHeartbeatAt := 5, heartbeatFailCount := 0 }) ∧
    GetConnection (SendNotificationToClient cmC "alice" (fun _ => true) 9).2.1 "alice" "phone" =
      some (deliverUpdate (fun _ => true) 9
        { freshConn "alice" "phone" "svc" 0 with
            streamSet := true, isActive := true,
            lastHeartbeatAt := 5, heartbeatFailCount := 0 }) :=
  claim_C8_broadcast_per_device cmC (fun _ => true) 9
    (by unfold WF; decide) "alice" "phone" _ (by decide)

/-! ### Claim C1: uniqueID derivation and lookup agreement -/

theorem mem_GetAll_of_lookup {cm : ConnectionManager} {c d : String} {conn : Connection}
    (h : GetConnection cm c d = some conn) : conn ∈ GetAllConnections cm := by
  rw [GetConnection_eq_bind] at h
  cases hg : GetClientGroup cm c with
  | none => rw [hg] at h; exact absurd h (by simp)
  | some cg =>
      rw [hg] at h
      have h2 : GetDevice cg d = some conn := h
      exact mem_GetAllConnections_iff.mpr
        ⟨(c, cg), alookup_mem hg, (d, conn), alookup_mem h2, rfl⟩

/-- Counterexample to C1 as stated: with both ("a_b","c") and ("a","b_c")
registered (all ids non-empty), the derived uniqueIDs collide, and right
after register("a","b_c") the uniqueID lookup returns the other client's
Connection, not the one lookupByIds returns. -/
theorem claim_C1_counterexample :
    CreateUniqueID "a" "b_c" = CreateUniqueID "a_b" "c" ∧
    GetConnectionByUniqueID
        (RegisterDevice (RegisterDevice NewConnectionManager "a_b" "c" "s" 0).2
          "a" "b_c" "s" 0).2
        (CreateUniqueID "a" "b_c") ≠
      GetConnection
        (RegisterDevice (RegisterDevice NewConnectionManager "a_b" "c" "s" 0).2
          "a" "b_c" "s" 0).2
        "a" "b_c" := by
  decide

/-- C1 (amended): for all non-empty clientID and deviceID, the derived
uniqueID equals clientID ++ "_" ++ deviceID, and — provided the registry
after registration is well-formed and no connection of a *different*
(clientID, deviceID) pair shares this derived uniqueID (the spec itself
flags the collision case as an open question) — lookupByUniqueID after
register returns exactly the Connection lookupByIds returns. -/
theorem claim_C1_unique_id_lookup (cm : ConnectionManager) (c d s : String) (now : Nat)
    (hc : c ≠ "") (hd : d ≠ "")
    (hWF : WF (RegisterDevice cm c d s now).2)
    (hColl : ∀ q ∈ GetAllConnections (RegisterDevice cm c d s now).2,
      q.uniqueID = CreateUniqueID c d → q.clientID = c ∧ q.deviceID = d) :
    CreateUniqueID c d = c ++ "_" ++ d ∧
    (GetConnection (RegisterDevice cm c d s now).2 c d).isSome ∧
    GetConnectionByUniqueID (RegisterDevice cm c d s now).2 (CreateUniqueID c d) =
      GetConnection (RegisterDevice cm c d s now).2 c d := by
  have hlk : ∃ x, GetConnection (RegisterDevice cm c d s now).2 c d = some x := by
    rw [RegisterDevice_eq, if_neg hc, if_neg hd]
    cases hg : GetConnection cm c d with
    | some e =>
        refine ⟨e, ?_⟩
        simp only [hg]
    | none =>
        refine ⟨freshConn c d s now, ?_⟩
        simp only [hg]
        exact GetConnection_AddConnection_self cm (freshConn c d s now)
  obtain ⟨x, hlk⟩ := hlk
  refine ⟨rfl, by rw [hlk]; rfl, ?_⟩
  rw [hlk]
  unfold GetConnectionByUniqueID
  have hxmem : x ∈ GetAllConnections (RegisterDevice cm c d s now).2 :=
    mem_GetAll_of_lookup hlk
  have hxuid : x.uniqueID = CreateUniqueID c d := (WF_lookup_ids hWF hlk).2.2
  cases hf : (GetAllConnections (RegisterDevice cm c d s now).2).find?
      (fun q => q.uniqueID = CreateUniqueID c d) with
  | none =>
      exfalso
      have := List.find?_eq_none.mp hf x hxmem
      simp [hxuid] at this
  | some y =>
      have hyP := List.find?_some hf
      have hymem := List.mem_of_find?_eq_some hf
      have hyuid : y.uniqueID = CreateUniqueID c d := by simpa using hyP
      obtain ⟨hyc, hyd⟩ := hColl y hymem hyuid
      have hly := WF_mem_lookup hWF hymem
      rw [hyc, hyd] at hly
      rw [hlk] at hly
      have hxy : x = y := by injection hly
      rw [hxy]

/-- Witness for the amended C1: registering alice/phone in the empty
registry, the uniqueID lookup and the id lookup agree. -/
theorem claim_C1_witness :
    CreateUniqueID "alice" "phone" = "alice" ++ "_" ++ "phone" ∧
    (GetConnection (RegisterDevice NewConnectionManager "alice" "phone" "svc" 0).2
      "alice" "phone").isSome ∧
    GetConnectionByUniqueID (RegisterDevice NewConnectionManager "alice" "phone" "svc" 0).2
        (CreateUniqueID "alice" "phone") =
      GetConnection (RegisterDevice NewConnectionManager "alice" "phone" "svc" 0).2
        "alice" "phone" :=
  claim_C1_unique_id_lookup NewConnectionManager "alice" "phone" "svc" 0
    (by decide) (by decide) (by unfold WF; decide) (by decide)

/-! ### Claim C2: heartbeat supervisor -/

theorem hbTick_success {cm : ConnectionManager} {c d : String} {conn : Connection}
    (now : Nat) (hlk : GetConnection cm c d = some conn)
    (hact : conn.isActive = true) (hstr : conn.streamSet = true) :
    heartbeatTick cm c d true now =
      (updateConn cm c d (fun co => { co with heartbeatFailCount := 0, lastHeartbeatAt := now }),
       true) := by
  unfold heartbeatTick
  simp only [hlk]
  rw [if_neg (by
    intro hcon
    rcases hcon with h | h
    · exact h hact
    · exact h hstr)]
  rw [if_pos trivial]

theorem hbTick_fail_keep {cm : ConnectionManager} {c d : String} {conn : Connection}
    (now : Nat) (hlk : GetConnection cm c d = some conn)
    (hact : conn.isActive = true) (hstr : conn.streamSet = true)
    (hth : ¬ conn.heartbeatFailCount + 1 ≥ 2) :
    heartbeatTick cm c d false now =
      (updateConn cm c d (fun co => { co with heartbeatFailCount := co.heartbeatFailCount + 1 }),
       true) := by
  unfold heartbeatTick
  simp only [hlk]
  rw [if_neg (by
    intro hcon
    rcases hcon with h | h
    · exact h hact
    · exact h hstr)]
  rw [if_neg (by simp)]
  rw [if_neg hth]

theorem hbTick_fail_evict {cm : ConnectionManager} {c d : String} {conn : Connection}
    (now : Nat) (hlk : GetConnection cm c d = some conn)
    (hact : conn.isActive = true) (hstr : conn.streamSet = true)
    (hth : conn.heartbeatFailCount + 1 ≥ 2) :
    heartbeatTick cm c d false now =
      ((UnregisterDevice
          (updateConn cm c d (fun co => { co with heartbeatFailCount := co.heartbeatFailCount + 1 }))
          c d).2,
       false) := by
  unfold heartbeatTick
  simp only [hlk]
  rw [if_neg (by
    intro hcon
    rcases hcon with h | h
    · exact h hact
    · exact h hstr)]
  rw [if_neg (by simp)]
  rw [if_pos hth]

theorem runHeartbeats_cons_keep {c d : String} {cm cmN : ConnectionManager}
    {o : Bool} {tm : Nat} (ticks : List (Bool × Nat))
    (h : heartbeatTick cm c d o tm = (cmN, true)) :
    runHeartbeats c d cm ((o, tm) :: ticks) = runHeartbeats c d cmN ticks := by
  simp only [runHeartbeats, h]
  rw [if_pos trivial]

theorem runHeartbeats_cons_stop {c d : String} {cm cmN : ConnectionManager}
    {o : Bool} {tm : Nat} (ticks : List (Bool × Nat))
    (h : heartbeatTick cm c d o tm = (cmN, false)) :
    runHeartbeats c d cm ((o, tm) :: ticks) = cmN := by
  simp only [runHeartbeats, h]
  rw [if_neg (by simp)]

theorem WF_unregClear {cm : ConnectionManager} {c d : String} {conn : Connection}
    (hWF : WF cm) : WF (unregClear cm c d conn) := by
  unfold unregClear
  by_cases hsa : (conn.streamSet ∧ conn.isActive)
  · rw [if_pos hsa]
    exact WF_updateConn (fun x => ⟨rfl, rfl, rfl⟩) hWF
  · rw [if_neg hsa]
    exact hWF

theorem WF_UnregisterDevice {cm : ConnectionManager} (c d : String)
    (hWF : WF cm) : WF (UnregisterDevice cm c d).2 := by
  rw [UnregisterDevice_state]
  by_cases he : (c = "" ∨ d = "")
  · rw [if_pos he]; exact hWF
  · rw [if_neg he]
    cases GetConnection cm c d with
    | none => exact hWF
    | some conn => exact WF_RemoveConnection (WF_unregClear hWF)

theorem mem_ids_updateConn {cm : ConnectionManager} {c d : String}
    {f : Connection → Connection} {q : Connection} (hf : IdPres f)
    (hq : q ∈ GetAllConnections (updateConn cm c d f)) :
    ∃ q0 ∈ GetAllConnections cm,
      q.clientID = q0.clientID ∧ q.deviceID = q0.deviceID ∧ q.uniqueID = q0.uniqueID := by
  obtain ⟨q0, hq0, hqe⟩ := mem_GetAllConnections_updateConn hq
  rcases hqe with hqe | hqe
  · exact ⟨q0, hq0, by rw [hqe], by rw [hqe], by rw [hqe]⟩
  · exact ⟨q0, hq0, by rw [hqe]; exact (hf q0).1,
      by rw [hqe]; exact (hf q0).2.1, by rw [hqe]; exact (hf q0).2.2⟩

theorem mem_ids_unregClear {cm : ConnectionManager} {c d : String}
    {conn q : Connection} (hq : q ∈ GetAllConnections (unregClear cm c d conn)) :
    ∃ q0 ∈ GetAllConnections cm,
      q.clientID = q0.clientID ∧ q.deviceID = q0.deviceID ∧ q.uniqueID = q0.uniqueID := by
  unfold unregClear at hq
  by_cases hsa : (conn.streamSet ∧ conn.isActive)
  · rw [if_pos hsa] at hq
    exact mem_ids_updateConn
      (f := fun co => { co with isActive := false, streamSet := false })
      (fun x => ⟨rfl, rfl, rfl⟩) hq
  · rw [if_neg hsa] at hq
    exact ⟨q, hq, rfl, rfl, rfl⟩

theorem mem_ids_UnregisterDevice {cm : ConnectionManager} {c d : String}
    {q : Connection} (hq : q ∈ GetAllConnections (UnregisterDevice cm c d).2) :
    ∃ q0 ∈ GetAllConnections cm,
      q.clientID = q0.clientID ∧ q.deviceID = q0.deviceID ∧ q.uniqueID = q0.uniqueID := by
  rw [UnregisterDevice_state] at hq
  by_cases he : (c = "" ∨ d = "")
  · rw [if_pos he] at hq
    exact ⟨q, hq, rfl, rfl, rfl⟩
  · rw [if_neg he] at hq
    cases hg : GetConnection cm c d with
    | none =>
        rw [hg] at hq
        exact ⟨q, hq, rfl, rfl, rfl⟩
    | some conn =>
        rw [hg] at hq
        exact mem_ids_unregClear (mem_GetAllConnections_RemoveConnection hq)

/-- C2: for a streaming Connection with failure counter 0, a successful
heartbeat send resets the counter (and stamps lastHeartbeatAt); after
exactly 2 consecutive send failures the supervisor unregisters the device,
after which it is unreachable via lookupByIds, lookupByUniqueID and
devicesOf; two failures separated by a success leave the device registered
with failure counter 1. -/
theorem claim_C2_heartbeat_eviction (cm : ConnectionManager) (c d : String)
    (conn : Connection) (t1 t2 t3 : Nat)
    (hc : c ≠ "") (hd : d ≠ "") (hWF : WF cm)
    (hlk : GetConnection cm c d = some conn)
    (ha : conn.isActive = true) (hs : conn.streamSet = true)
    (hf0 : conn.heartbeatFailCount = 0)
    (hColl : ∀ q ∈ GetAllConnections cm,
      q.uniqueID = conn.uniqueID → q.clientID = c ∧ q.deviceID = d) :
    GetConnection (heartbeatTick cm c d true t1).1 c d =
      some { conn with heartbeatFailCount := 0, lastHeartbeatAt := t1 } ∧
    (GetConnection (runHeartbeats c d cm [(false, t1), (false, t2)]) c d = none ∧
     GetConnectionByUniqueID (runHeartbeats c d cm [(false, t1), (false, t2)])
       conn.uniqueID = none ∧
     (∀ l, GetClientDevices (runHeartbeats c d cm [(false, t1), (false, t2)]) c = .ok l →
        ∀ q ∈ l, q.deviceID ≠ d)) ∧
    GetConnection (runHeartbeats c d cm [(false, t1), (true, t2), (false, t3)]) c d =
      some { conn with heartbeatFailCount := 1, lastHeartbeatAt := t2 } := by
  have hA : GetConnection (heartbeatTick cm c d true t1).1 c d =
      some { conn with heartbeatFailCount := 0, lastHeartbeatAt := t1 } := by
    rw [hbTick_success t1 hlk ha hs]
    show GetConnection (updateConn cm c d
      (fun co => { co with heartbeatFailCount := 0, lastHeartbeatAt := t1 })) c d = _
    rw [GetConnection_updateConn_self, hlk]
    rfl
  have h1 : heartbeatTick cm c d false t1 =
      (updateConn cm c d (fun co => { co with heartbeatFailCount := co.heartbeatFailCount + 1 }),
       true) :=
    hbTick_fail_keep t1 hlk ha hs (by omega)
  have hlk1 : GetConnection
      (updateConn cm c d (fun co => { co with heartbeatFailCount := co.heartbeatFailCount + 1 }))
      c d = some { conn with heartbeatFailCount := conn.heartbeatFailCount + 1 } := by
    rw [GetConnection_updateConn_self, hlk]
    rfl
  -- two consecutive failures: second tick evicts
  have h2 : heartbeatTick
      (updateConn cm c d (fun co => { co with heartbeatFailCount := co.heartbeatFailCount + 1 }))
      c d false t2 =
      ((UnregisterDevice
          (updateConn
            (updateConn cm c d (fun co => { co with heartbeatFailCount := co.heartbeatFailCount + 1 }))
            c d (fun co => { co with heartbeatFailCount := co.heartbeatFailCount + 1 }))
          c d).2,
       false) :=
    hbTick_fail_evict t2 hlk1 ha hs (by show conn.heartbeatFailCount + 1 + 1 ≥ 2; omega)
  have hrunB : runHeartbeats c d cm [(false, t1), (false, t2)] =
      (UnregisterDevice
        (updateConn
          (updateConn cm c d (fun co => { co with heartbeatFailCount := co.heartbeatFailCount + 1 }))
          c d (fun co => { co with heartbeatFailCount := co.heartbeatFailCount + 1 }))
        c d).2 := by
    rw [runHeartbeats_cons_keep _ h1, runHeartbeats_cons_stop _ h2]
  have hlk2 : GetConnection
      (updateConn
        (updateConn cm c d (fun co => { co with heartbeatFailCount := co.heartbeatFailCount + 1 }))
        c d (fun co => { co with heartbeatFailCount := co.heartbeatFailCount + 1 }))
      c d = some { conn with heartbeatFailCount := conn.heartbeatFailCount + 1 + 1 } := by
    rw [GetConnection_updateConn_self, hlk1]
    rfl
  have hnone : GetConnection (runHeartbeats c d cm [(false, t1), (false, t2)]) c d = none := by
    rw [hrunB, (UnregisterDevice_ok hc hd hlk2).2]
    exact GetConnection_RemoveConnection_self _ c d
  have hWFF : WF (runHeartbeats c d cm [(false, t1), (false, t2)]) := by
    rw [hrunB]
    exact WF_UnregisterDevice c d
      (WF_updateConn (fun x => ⟨rfl, rfl, rfl⟩)
        (WF_updateConn (fun x => ⟨rfl, rfl, rfl⟩) hWF))
  have hids : ∀ q ∈ GetAllConnections (runHeartbeats c d cm [(false, t1), (false, t2)]),
      q.uniqueID = conn.uniqueID → q.clientID = c ∧ q.deviceID = d := by
    intro q hq huid
    rw [hrunB] at hq
    obtain ⟨q1, hq1, hcq1, hdq1, huq1⟩ := mem_ids_UnregisterDevice hq
    obtain ⟨q2, hq2, hcq2, hdq2, huq2⟩ := mem_ids_updateConn
      (f := fun co => { co with heartbeatFailCount := co.heartbeatFailCount + 1 })
      (fun x => ⟨rfl, rfl, rfl⟩) hq1
    obtain ⟨q3, hq3, hcq3, hdq3, huq3⟩ := mem_ids_updateConn
      (f := fun co => { co with heartbeatFailCount := co.heartbeatFailCount + 1 })
      (fun x => ⟨rfl, rfl, rfl⟩) hq2
    have hq3id := hColl q3 hq3 (by rw [← huq3, ← huq2, ← huq1]; exact huid)
    exact ⟨by rw [hcq1, hcq2, hcq3]; exact hq3id.1,
           by rw [hdq1, hdq2, hdq3]; exact hq3id.2⟩
  have hbuid : GetConnectionByUniqueID (runHeartbeats c d cm [(false, t1), (false, t2)])
      conn.uniqueID = none := by
    unfold GetConnectionByUniqueID
    rw [List.find?_eq_none]
    intro q hq
    simp only [decide_eq_true_eq]
    intro huid
    obtain ⟨hcq, hdq⟩ := hids q hq huid
    have hql := WF_mem_lookup hWFF hq
    rw [hcq, hdq, hnone] at hql
    exact absurd hql (by simp)
  have hdevs : ∀ l, GetClientDevices (runHeartbeats c d cm [(false, t1), (false, t2)]) c = .ok l →
      ∀ q ∈ l, q.deviceID ≠ d := by
    intro l hl q hq hqd
    unfold GetClientDevices at hl
    cases hg : GetClientGroup (runHeartbeats c d cm [(false, t1), (false, t2)]) c with
    | none =>
        rw [hg] at hl
        exact Except.noConfusion hl
    | some cg =>
        rw [hg] at hl
        have hleq : GetAllDevices cg = l := by injection hl
        rw [← hleq] at hq
        obtain ⟨r, hr, hrq⟩ := List.mem_map.mp hq
        have hqmem : q ∈ GetAllConnections (runHeartbeats c d cm [(false, t1), (false, t2)]) :=
          mem_GetAllConnections_iff.mpr ⟨(c, cg), alookup_mem hg, r, hr, hrq⟩
        have hqc : q.clientID = c := by
          rw [← hrq]
          exact ((hWFF.2 (c, cg) (alookup_mem hg)).2.2 r hr).1
        have hql := WF_mem_lookup hWFF hqmem
        rw [hqc, hqd, hnone] at hql
        exact absurd hql (by simp)
  -- failure, success, failure: no eviction, counter 1, lastHeartbeatAt t2
  have h2c : heartbeatTick
      (updateConn cm c d (fun co => { co with heartbeatFailCount := co.heartbeatFailCount + 1 }))
      c d true t2 =
      (updateConn
        (updateConn cm c d (fun co => { co with heartbeatFailCount := co.heartbeatFailCount + 1 }))
        c d (fun co => { co with heartbeatFailCount := 0, lastHeartbeatAt := t2 }),
       true) :=
    hbTick_success t2 hlk1 ha hs
  have hlk2c : GetConnection
      (updateConn
        (updateConn cm c d (fun co => { co with heartbeatFailCount := co.heartbeatFailCount + 1 }))
        c d (fun co => { co with heartbeatFailCount := 0, lastHeartbeatAt := t2 }))
      c d = some { conn with heartbeatFailCount := 0, lastHeartbeatAt := t2 } := by
    rw [GetConnection_updateConn_self, hlk1]
    rfl
  have h3 : heartbeatTick
      (updateConn
        (updateConn cm c d (fun co => { co with heartbeatFailCount := co.heartbeatFailCount + 1 }))
        c d (fun co => { co with heartbeatFailCount := 0, lastHeartbeatAt := t2 }))
      c d false t3 =
      (updateConn
        (updateConn
          (updateConn cm c d (fun co => { co with heartbeatFailCount := co.heartbeatFailCount + 1 }))
          c d (fun co => { co with heartbeatFailCount := 0, lastHeartbeatAt := t2 }))
        c d (fun co => { co with heartbeatFailCount := co.heartbeatFailCount + 1 }),
       true) :=
    hbTick_fail_keep t3 hlk2c ha hs (by show ¬ (0 + 1 ≥ 2); omega)
  have hC : GetConnection (runHeartbeats c d cm [(false, t1), (true, t2), (false, t3)]) c d =
      some { conn with heartbeatFailCount := 1, lastHeartbeatAt := t2 } := by
    rw [runHeartbeats_cons_keep _ h1, runHeartbeats_cons_keep _ h2c,
      runHeartbeats_cons_keep _ h3]
    show GetConnection (updateConn _ c d
      (fun co => { co with heartbeatFailCount := co.heartbeatFailCount + 1 })) c d = _
    rw [GetConnection_updateConn_self, hlk2c]
    rfl
  exact ⟨hA, ⟨hnone, hbuid, hdevs⟩, hC⟩

/-- Witness for C2, on cmC (alice/phone streaming, alice/laptop idle). -/
theorem claim_C2_witness :
    GetConnection (heartbeatTick cmC "alice" "phone" true 6).1 "alice" "phone" =
      some { freshConn "alice" "phone" "svc" 0 with
               streamSet := true, isActive := true,
               lastHeartbeatAt := 6, heartbeatFailCount := 0 } ∧
    (GetConnection (runHeartbeats "alice" "phone" cmC [(false, 6), (false, 7)])
        "alice" "phone" = none ∧
     GetConnectionByUniqueID (runHeartbeats "alice" "phone" cmC [(false, 6), (false, 7)])
       ({ freshConn "alice" "phone" "svc" 0 with
            streamSet := true, isActive := true,
            lastHeartbeatAt := 5, heartbeatFailCount := 0 } : Connection).uniqueID = none ∧
     (∀ l, GetClientDevices (runHeartbeats "alice" "phone" cmC [(false, 6), (false, 7)])
        "alice" = .ok l → ∀ q ∈ l, q.deviceID ≠ "phone")) ∧
    GetConnection (runHeartbeats "alice" "phone" cmC [(false, 6), (true, 7), (false, 8)])
        "alice" "phone" =
      some { freshConn "alice" "phone" "svc" 0 with
               streamSet := true, isActive := true,
               lastHeartbeatAt := 7, heartbeatFailCount := 1 } :=
  claim_C2_heartbeat_eviction cmC "alice" "phone"
    { freshConn "alice" "phone" "svc" 0 with
        streamSet := true, isActive := true,
        lastHeartbeatAt := 5, heartbeatFailCount := 0 }
    6 7 8 (by decide) (by decide) (by unfold WF; decide) (by decide) rfl rfl rfl (by decide)

/-- Witness for C9: an empty client id is rejected with the validation
message, and a fully supplied registration on cmA reports no error. -/
theorem claim_C9_witness :
    (isErr (RegisterDevice cmA "" "phone" "s" 0).1 = true ↔ ("" = "" ∨ "phone" = "")) ∧
    ("client_id is required" = "client_id is required" ∨
      "client_id is required" = "device_id is required") ∧
    (isErr (RegisterDevice cmA "carol" "tab" "s" 2).1 = true ↔
      ("carol" = "" ∨ "tab" = "")) :=
  ⟨(claim_C9_register_validation_iff cmA "" "phone" "s" 0).1,
   (claim_C9_register_validation_iff cmA "" "phone" "s" 0).2 "client_id is required" (by rfl),
   (claim_C9_register_validation_iff cmA "carol" "tab" "s" 2).1⟩

/-- Witness for C3: dispatch to alice on cmC (one attached device, one
idle) succeeds with success-count 1; dispatch on cmA (no attached device)
errors. -/
theorem claim_C3_witness :
    (isErr (SendNotificationToClient cmC "alice" (fun _ => true) 9).1 = true ↔
      clientSuccessCount cmC "alice" (fun _ => true) = 0) ∧
    (SendNotificationToClient cmC "alice" (fun _ => true) 9).2.2.1 =
      clientSuccessCount cmC "alice" (fun _ => true) ∧
    (isErr (SendNotificationToClient cmA "alice" (fun _ => true) 9).1 = true ↔
      clientSuccessCount cmA "alice" (fun _ => true) = 0) :=
  ⟨(claim_C3_delivery_error_iff cmC "alice" (fun _ => true) 9).1,
   (claim_C3_delivery_error_iff cmC "alice" (fun _ => true) 9).2,
   (claim_C3_delivery_error_iff cmA "alice" (fun _ => true) 9).1⟩
